import Mathlib

/-!
Verification development for the gamma-exposure dashboard service.

This file gives a shallow embedding, in Lean 4, of the two core subsystems of
the repository — the GEX engine (`app/analytics/gex_dashboard.py`) and the
snapshot cache / refresh coordinator (`app/services/market_snapshot_service.py`)
— together with theorems settling the stated behavioural claims.

Modelling conventions:
* Python floats are modelled as rationals (`ℚ`); the float literal `1e-12`
  is modelled as `1/10^12`, and Python `round` as round-half-to-even.
* JSON dictionary fields that may be absent or non-numeric are modelled as
  `Option` values; the source's `_safe_float(x, default)` becomes
  `Option.getD` (non-numeric / NaN / infinite inputs all collapse to the
  default, exactly as in the source).
* Python `str` primitives that do not reduce in the kernel are re-implemented
  at the character-list level (`strUpper`, `strDropDollar`, ...), with the
  same semantics as the `str` methods the source calls.
* Stateful service code is embedded as explicit state passing over a
  `ServiceState` record; the concurrent behaviour of `get_snapshot` is
  embedded separately as a small-step transition system (see the
  `SingleFlight` namespace).
-/

/-! ## Python string primitives, at the character level -/

/-- Python `str.upper()`. -/
def strUpper (s : String) : String := ⟨s.data.map Char.toUpper⟩

/-- Python `str.lower()`. -/
def strLower (s : String) : String := ⟨s.data.map Char.toLower⟩

/-- Python `str.replace("$", "")`: removes every dollar sign. -/
def strDropDollar (s : String) : String := ⟨s.data.filter (fun c => c != '$')⟩

/-- Python `str.startswith("$")`. -/
def strStartsDollar (s : String) : Bool := s.data.head? = some '$'

/-- Python `s[1:]` (code-point slicing). -/
def strTail (s : String) : String := ⟨s.data.drop 1⟩

/-- Python `str.replace("_", " ")` (single-character replacement). -/
def strUnderscoreToSpace (s : String) : String :=
  ⟨s.data.map (fun c => if c = '_' then ' ' else c)⟩

/-- Python `s.split(":", 1)`: the part before the first colon, and — when a
colon occurs — the part after it. -/
def splitFirstColon (s : String) : String × Option String :=
  let pre := s.data.takeWhile (fun c => c != ':')
  match s.data.dropWhile (fun c => c != ':') with
  | [] => (⟨pre⟩, none)
  | _ :: rest => (⟨pre⟩, some ⟨rest⟩)

/-- Value of a decimal digit character, if it is one. -/
def charDigit (c : Char) : Option ℕ :=
  if c.isDigit then some (c.toNat - 48) else none

/-- Value of a nonempty all-decimal-digit character list, else `none`. -/
def digitsVal (cs : List Char) : Option ℕ :=
  if cs = [] then none
  else
    cs.foldl
      (fun acc c =>
        match acc, charDigit c with
        | some n, some d => some (n * 10 + d)
        | _, _ => none)
      (some 0)

/-- Python `int(float(s))` on decimal literals: optional sign, digits, optional
fractional part (truncated toward zero). Non-numeric strings yield `none`
(the source catches the exception). Exponent notation does not occur in the
provider's expiry labels and is not modelled. -/
def parseFloatTrunc (s : String) : Option ℤ :=
  let signBody : Bool × List Char :=
    match s.data with
    | '-' :: rest => (true, rest)
    | '+' :: rest => (false, rest)
    | cs => (false, cs)
  let neg := signBody.1
  let body := signBody.2
  let ip := body.takeWhile (fun c => c != '.')
  match body.dropWhile (fun c => c != '.') with
  | [] => (digitsVal ip).map (fun n => if neg then -(n : ℤ) else (n : ℤ))
  | _ :: fp =>
    if (ip.all Char.isDigit ∧ fp.all Char.isDigit ∧ (ip ≠ [] ∨ fp ≠ [])) then
      let n := (digitsVal ip).getD 0
      some (if neg then -(n : ℤ) else (n : ℤ))
    else none

/-! ## Python numeric primitives -/

/-- Python `round` to an integer: round half to even. -/
def roundHalfEven (q : ℚ) : ℤ :=
  let n := Int.floor q
  let r := q - n
  if r < 1/2 then n
  else if 1/2 < r then n + 1
  else if Even n then n else n + 1

/-- Python `round(q, digits)`. -/
def pyRound (q : ℚ) (digits : ℕ) : ℚ :=
  (roundHalfEven (q * 10 ^ digits) : ℚ) / 10 ^ digits

/-- Python `int()` applied to a float: truncation toward zero. -/
def ratTrunc (q : ℚ) : ℤ := if 0 ≤ q then Int.floor q else Int.ceil q

/-- Python `max(xs, key=f)` on a nonempty list: the first element attaining
the maximal key (ties keep the earliest element). -/
def pyMaxBy {α : Type} (f : α → ℚ) : List α → Option α
  | [] => none
  | x :: xs => some (xs.foldl (fun best y => if f best < f y then y else best) x)

/-- Python `min(xs, key=f)` on a nonempty list: the first element attaining
the minimal key. -/
def pyMinBy {α : Type} (f : α → ℚ) : List α → Option α
  | [] => none
  | x :: xs => some (xs.foldl (fun best y => if f y < f best then y else best) x)

/-- `defaultdict(float)` accumulation `m[k] += v`, preserving Python dict
insertion order. -/
def addToMap (m : List (ℚ × ℚ)) (k v : ℚ) : List (ℚ × ℚ) :=
  match m with
  | [] => [(k, v)]
  | (k0, v0) :: rest =>
    if k = k0 then (k0, v0 + v) :: rest else (k0, v0) :: addToMap rest k v

/-- `_safe_float`: absent / non-numeric / NaN / infinite inputs (modelled as
`none`) collapse to the caller-supplied default. -/
def safeFloat (v : Option ℚ) (default : ℚ) : ℚ := v.getD default

/-! ## `app/analytics/gex_dashboard.py` — data shapes -/

/-- One raw option-contract dictionary from the provider payload; every field
the flattener reads, each possibly absent or non-numeric. -/
structure RawContract where
  symbol : Option String := none
  bid : Option ℚ := none
  ask : Option ℚ := none
  mark : Option ℚ := none
  last : Option ℚ := none
  delta : Option ℚ := none
  gamma : Option ℚ := none
  theta : Option ℚ := none
  vega : Option ℚ := none
  volatility : Option ℚ := none
  iv : Option ℚ := none
  openInterest : Option ℚ := none
  totalVolume : Option ℚ := none
  volume : Option ℚ := none

/-- A raw option chain payload: side maps keyed by `"expiry:dte"` labels and
then by strike-price keys (the strike key is a string in the payload, already
passed through `_safe_float`, hence `Option ℚ` here). -/
structure RawChain where
  callExpDateMap : List (String × List (Option ℚ × List RawContract)) := []
  putExpDateMap : List (String × List (Option ℚ × List RawContract)) := []

/-- Python truthiness of the chain payload (`if chain:`), modelled on its two
option maps. -/
def chainTruthy (c : RawChain) : Bool :=
  !(c.callExpDateMap.isEmpty && c.putExpDateMap.isEmpty)

/-- The price-carrying fields of a quote object, each possibly absent. -/
structure QuoteFields where
  lastPrice : Option ℚ := none
  last : Option ℚ := none
  mark : Option ℚ := none
  closePrice : Option ℚ := none
  bidPrice : Option ℚ := none
  askPrice : Option ℚ := none

/-- A raw quote payload: top-level price fields plus an optional nested
`"quote"` sub-object. -/
structure RawQuote extends QuoteFields where
  quote : Option QuoteFields := none

/-- A flattened contract record (`flatten_option_chain` row). -/
structure ContractRow where
  side : String
  symbol : Option String
  expiry : String
  dte : ℤ
  strike : ℚ
  bid : ℚ
  ask : ℚ
  last : ℚ
  mark : ℚ
  delta : ℚ
  gamma : ℚ
  theta : ℚ
  vega : ℚ
  iv : ℚ
  open_interest : ℚ
  volume : ℚ

/-! ## `app/analytics/gex_dashboard.py` — normalizer -/

/-- `_parse_expiry_key`: split on the first colon; the right side is parsed as
`int(float(...))`, defaulting to `0` on failure; without a colon the whole key
is the expiry and the days-to-expiry is `0`. -/
def parseExpiryKey (k : String) : String × ℤ :=
  match splitFirstColon k with
  | (_, none) => (k, 0)
  | (expiry, some dte) => (expiry, (parseFloatTrunc dte).getD 0)

/-- One row of `flatten_option_chain`, from one contract dictionary. -/
def rowOfContract (sideName expiry : String) (dte : ℤ) (strike : ℚ)
    (c : RawContract) : ContractRow :=
  let bid := safeFloat c.bid 0
  let ask := safeFloat c.ask 0
  { side := sideName
    symbol := c.symbol
    expiry := expiry
    dte := dte
    strike := strike
    bid := bid
    ask := ask
    last := safeFloat c.last 0
    mark := safeFloat c.mark (if 0 < bid ∧ 0 < ask then (bid + ask) / 2 else 0)
    delta := safeFloat c.delta 0
    gamma := safeFloat c.gamma 0
    theta := safeFloat c.theta 0
    vega := safeFloat c.vega 0
    iv := safeFloat c.volatility (safeFloat c.iv 0)
    open_interest := safeFloat c.openInterest 0
    volume := safeFloat c.totalVolume (safeFloat c.volume 0) }

/-- Flatten one side map of the chain, in iteration order. -/
def flattenSide (sideName : String)
    (sideMap : List (String × List (Option ℚ × List RawContract))) :
    List ContractRow :=
  (sideMap.map (fun em =>
    let ed := parseExpiryKey em.1
    (em.2.map (fun sm =>
      sm.2.map (rowOfContract sideName ed.1 ed.2 (safeFloat sm.1 0)))).flatten)).flatten

/-- `flatten_option_chain`: calls first, then puts. -/
def flattenOptionChain (chain : RawChain) : List ContractRow :=
  flattenSide "CALL" chain.callExpDateMap ++ flattenSide "PUT" chain.putExpDateMap

/-- Candidate prices of one quote bucket, in the source's field order. -/
def quoteFieldsCandidates (b : QuoteFields) : List ℚ :=
  [safeFloat b.lastPrice 0, safeFloat b.last 0, safeFloat b.mark 0,
   safeFloat b.closePrice 0, safeFloat b.bidPrice 0, safeFloat b.askPrice 0]

/-- `extract_quote_price`: first strictly-positive candidate over the top-level
bucket and then the nested `"quote"` bucket, else `none`. -/
def extractQuotePrice (q : RawQuote) : Option ℚ :=
  let buckets :=
    [q.toQuoteFields] ++ (match q.quote with | some nq => [nq] | none => [])
  ((buckets.map quoteFieldsCandidates).flatten).find? (fun v => decide (0 < v))

/-! ## `app/analytics/gex_dashboard.py` — GEX engine -/

/-- One entry of the `top_levels` ranking. -/
structure TopLevel where
  strike : ℚ
  gex : ℚ
  gex_billion : ℚ
  side : String

/-- The `gex` section of a dashboard snapshot (`GexResult`). -/
structure GexResult where
  pin : Option ℚ
  distance_to_pin : Option ℚ
  direction_bias : String
  net_gex : ℚ
  net_gex_billion : ℚ
  call_wall : Option ℚ
  put_wall : Option ℚ
  top_levels : List TopLevel

/-- The neutral / unavailable GEX result returned for degenerate data. -/
def neutralGexResult : GexResult :=
  { pin := none
    distance_to_pin := none
    direction_bias := "UNKNOWN"
    net_gex := 0
    net_gex_billion := 0
    call_wall := none
    put_wall := none
    top_levels := [] }

/-- `_group_top_levels`: strikes ranked by absolute exposure, descending,
stably (Python `sorted` is stable), truncated to `topN`. -/
def groupTopLevels (m : List (ℚ × ℚ)) (topN : ℕ) : List TopLevel :=
  let ranked := (List.mergeSort m (fun a b => decide (|b.2| ≤ |a.2|))).take topN
  ranked.map (fun sg =>
    { strike := pyRound sg.1 2
      gex := sg.2
      gex_billion := pyRound (sg.2 / 1000000000) 3
      side := if (0 : ℚ) ≤ sg.2 then "POSITIVE" else "NEGATIVE" })

/-- The three per-strike accumulators of `_compute_gex`. -/
structure GexMaps where
  gexByStrike : List (ℚ × ℚ)
  callGexByStrike : List (ℚ × ℚ)
  putGexByStrike : List (ℚ × ℚ)

/-- One row's contribution in `_compute_gex`: rows with non-positive open
interest, zero gamma or non-positive strike are skipped; calls add
`gamma × OI × 100 × spot²`, puts subtract it. -/
def gexStep (spotPrice : ℚ) (acc : GexMaps) (row : ContractRow) : GexMaps :=
  if row.open_interest ≤ 0 ∨ row.gamma = 0 ∨ row.strike ≤ 0 then acc
  else
    let raw := row.gamma * row.open_interest * 100 * spotPrice ^ 2
    if row.side = "CALL" then
      { acc with
        gexByStrike := addToMap acc.gexByStrike row.strike raw
        callGexByStrike := addToMap acc.callGexByStrike row.strike raw }
    else
      { acc with
        gexByStrike := addToMap acc.gexByStrike row.strike (-raw)
        putGexByStrike := addToMap acc.putGexByStrike row.strike (-raw) }

/-- The proximity-weighted pin-selection score (the local `score` function of
`_compute_gex`); `1e-12` guards division by zero at the spot strike. -/
def pinScore (spotPrice strike gex : ℚ) : ℚ :=
  let distancePct := |strike - spotPrice| / max spotPrice 1
  gex / (distancePct ^ 5 + 1 / 1000000000000)

/-- `_compute_gex`. -/
def computeGex (rows : List ContractRow) (spotPrice : ℚ) : GexResult :=
  let maps := rows.foldl (gexStep spotPrice) ⟨[], [], []⟩
  if maps.gexByStrike = [] then neutralGexResult
  else
    let positiveLevels := maps.gexByStrike.filter (fun sg => decide (0 < sg.2))
    let pinStrike :=
      match pyMaxBy (fun sg => pinScore spotPrice sg.1 sg.2) positiveLevels with
      | some sg => sg.1
      | none =>
        match pyMaxBy (fun sg => |sg.2|) maps.gexByStrike with
        | some sg => sg.1
        | none => 0
    let callWall := (pyMaxBy (fun sg => sg.2) maps.callGexByStrike).map (fun sg => sg.1)
    let putWall := (pyMinBy (fun sg => sg.2) maps.putGexByStrike).map (fun sg => sg.1)
    let distance := spotPrice - pinStrike
    let bias :=
      if |distance| ≤ 6 then "NEUTRAL_PIN"
      else if 0 < distance then "BEARISH_PULLBACK"
      else "BULLISH_REVERSION"
    let netGex := (maps.gexByStrike.map (fun sg => sg.2)).sum
    { pin := some (pyRound pinStrike 2)
      distance_to_pin := some (pyRound distance 2)
      direction_bias := bias
      net_gex := netGex
      net_gex_billion := pyRound (netGex / 1000000000) 3
      call_wall := callWall.map (fun w => pyRound w 2)
      put_wall := putWall.map (fun w => pyRound w 2)
      top_levels := groupTopLevels maps.gexByStrike 8 }

/-! ## `app/analytics/gex_dashboard.py` — signal summary and snapshot -/

/-- One entry of the `signals.reasons` list. The source renders these as
formatted strings; the embedding keeps the numeric payload (string formatting
carries no further behaviour). -/
inductive SignalReason where
  | spotVsPin (spot pin distance : ℚ)
  | pcrOiEntry (v : ℚ)
  | pcrVolumeEntry (v : ℚ)
  | text (s : String)
deriving DecidableEq

/-- The `signals` section of a snapshot. -/
structure SignalSummary where
  observation : String
  direction_bias : String
  reasons : List SignalReason

/-- The source's `_call_put_summary` output. The fields named
`put_call_oi_ratio` / `put_call_volume_ratio` in the source are called
`pcr_oi` / `pcr_volume` here. -/
structure OptionsSummary where
  contracts : ℕ
  call_open_interest : ℤ
  put_open_interest : ℤ
  call_volume : ℤ
  put_volume : ℤ
  pcr_oi : Option ℚ
  pcr_volume : Option ℚ
  avg_iv : Option ℚ
  avg_abs_delta : Option ℚ
  avg_abs_gamma : Option ℚ

/-- `_call_put_summary`. -/
def callPutSummary (rows : List ContractRow) : OptionsSummary :=
  let callOi := ((rows.filter (fun r => r.side == "CALL")).map (fun r => r.open_interest)).sum
  let putOi := ((rows.filter (fun r => r.side == "PUT")).map (fun r => r.open_interest)).sum
  let callVolume := ((rows.filter (fun r => r.side == "CALL")).map (fun r => r.volume)).sum
  let putVolume := ((rows.filter (fun r => r.side == "PUT")).map (fun r => r.volume)).sum
  let ivValues := (rows.map (fun r => r.iv)).filter (fun v => decide (0 < v))
  let deltaValues := (rows.map (fun r => r.delta)).filter (fun v => v != 0)
  let gammaValues := (rows.map (fun r => r.gamma)).filter (fun v => v != 0)
  { contracts := rows.length
    call_open_interest := ratTrunc callOi
    put_open_interest := ratTrunc putOi
    call_volume := ratTrunc callVolume
    put_volume := ratTrunc putVolume
    pcr_oi := if 0 < callOi then some (pyRound (putOi / callOi) 4) else none
    pcr_volume := if 0 < callVolume then some (pyRound (putVolume / callVolume) 4) else none
    avg_iv :=
      if ivValues = [] then none
      else some (pyRound (ivValues.sum / ivValues.length) 4)
    avg_abs_delta :=
      if deltaValues = [] then none
      else some (pyRound ((deltaValues.map (fun v => |v|)).sum / deltaValues.length) 4)
    avg_abs_gamma :=
      if gammaValues = [] then none
      else some (pyRound ((gammaValues.map (fun v => |v|)).sum / gammaValues.length) 6) }

/-- `_build_signal_summary`. -/
def buildSignalSummary (gexSection : GexResult) (optionsSummary : OptionsSummary)
    (spot : ℚ) : SignalSummary :=
  let pinReasons : List SignalReason :=
    match gexSection.pin with
    | some pin => [SignalReason.spotVsPin spot pin (gexSection.distance_to_pin.getD 0)]
    | none => []
  let pcrOiReasons : List SignalReason :=
    match optionsSummary.pcr_oi with
    | some v => [SignalReason.pcrOiEntry v]
    | none => []
  let pcrVolReasons : List SignalReason :=
    match optionsSummary.pcr_volume with
    | some v => [SignalReason.pcrVolumeEntry v]
    | none => []
  let observation :=
    if gexSection.direction_bias = "NEUTRAL_PIN" then "PINNING_RISK"
    else if gexSection.direction_bias = "BEARISH_PULLBACK" then "UPSIDE_STRETCHED"
    else if gexSection.direction_bias = "BULLISH_REVERSION" then "DOWNSIDE_STRETCHED"
    else "INCONCLUSIVE"
  { observation := observation
    direction_bias := gexSection.direction_bias
    reasons := pinReasons ++ pcrOiReasons ++ pcrVolReasons }

/-- A `contract_to_card` entry. -/
structure ContractCard where
  symbol : Option String
  side : String
  expiry : String
  strike : ℚ
  volume : ℤ
  open_interest : ℤ
  iv : ℚ
  delta : ℚ
  gamma : ℚ
  mark : ℚ

/-- `contract_to_card`. -/
def contractToCard (row : ContractRow) : ContractCard :=
  { symbol := row.symbol
    side := row.side
    expiry := row.expiry
    strike := row.strike
    volume := ratTrunc row.volume
    open_interest := ratTrunc row.open_interest
    iv := row.iv
    delta := row.delta
    gamma := row.gamma
    mark := row.mark }

/-! ## Strategy dictionary shapes (`app/signals` output as consumed here) -/

/-- One named check's payload, as read by `_build_strategy_ui`
(`ok`, `blocking` — default true — and `detail`). -/
structure CheckPayload where
  ok : Option Bool := none
  blocking : Option Bool := none
  detail : Option String := none

/-- The `tradeable` sub-dictionary of a strategy. -/
structure Tradeable where
  action : Option String := none
  primary_reason : Option String := none
  reasons : List String := []
  checks : Option (List (String × CheckPayload)) := none
  evaluated_at_et : Option String := none

/-- The `core` sub-dictionary of a strategy. -/
structure StrategyCore where
  available : Bool
  strategy : String
  reason : Option String := none

/-- The `market_inputs` sub-dictionary of a strategy. -/
structure StrategyMarketInputs where
  index_code : String
  index_price : Option ℚ := none
  pin_price : Option ℚ := none
  vix : Option ℚ := none

/-- The `meta` sub-dictionary of a strategy. -/
structure StrategyMeta where
  source : String
  index_code : String
  generated_at_utc : String
  generated_at_et : Option String := none
  metrics_source : String
  warnings : List String := []
  error : Option String := none

/-- One entry of the strategy-UI timeline. -/
structure TimelineItem where
  order : ℕ
  name : String
  label_cn : String
  label_en : String
  ok : Bool
  blocking : Bool
  detail : String
  severity : String
  ts_local : Option String

/-- The `strategy_ui` block produced by `_build_strategy_ui`. -/
structure StrategyUi where
  decision_score : ℚ
  blocking_fail_count : ℕ
  soft_warn_count : ℕ
  passed_count : ℕ
  total_checks : ℕ
  action : String
  primary_reason : String
  evaluated_at : Option String
  timeline : List TimelineItem

/-- A strategy dictionary as handled by the coordinator; every sub-dictionary
may be absent. -/
structure StrategyDict where
  core : Option StrategyCore := none
  tradeable : Option Tradeable := none
  checks : Option (List (String × CheckPayload)) := none
  market_inputs : Option StrategyMarketInputs := none
  meta : Option StrategyMeta := none
  ui : Option StrategyUi := none

/-- The `strategy_event` block written by `_decorate_snapshot`. -/
structure StrategyEvent where
  action : String
  primary_reason : String
  decision_score : Option ℚ
  blocking_fail_count : Option ℕ
  soft_warn_count : Option ℕ

/-! ## Snapshot record (the dictionary assembled by
`build_dashboard_snapshot` and extended by the coordinator) -/

/-- The `system` sub-dictionary of a snapshot. -/
structure SystemInfo where
  refresh_seconds : Option ℤ := none
  last_refresh_epoch : Option ℚ := none
  source : Option String := none
  error : Option String := none
  stale : Option Bool := none
  stale_reason : Option String := none

/-- The timestamps derived from `generated_at` (`isoformat` of the UTC
conversion, and the local `strftime` rendering); passed in as opaque strings. -/
structure Timestamps where
  utc : String
  loc : String

/-- A dashboard snapshot. The source's nested `market` and `options`
dictionaries are flattened into prefixed fields; keys the coordinator adds
later (`strategy`, `system`, `strategy_ui`, `strategy_event`) are optional. -/
structure Snapshot where
  timestamp_utc : String
  timestamp_local : String
  index_code : String
  index_symbol : String
  market_spot : Option ℚ
  market_vix : Option ℚ
  market_quote : RawQuote
  market_vix_quote : Option RawQuote
  options_summary : Option OptionsSummary
  nearest_expiries : List String
  top_volume_contracts : List ContractCard
  top_open_interest_contracts : List ContractCard
  raw_contract_count : ℕ
  gex : GexResult
  signals : SignalSummary
  strategy : Option StrategyDict := none
  system : Option SystemInfo := none
  strategy_ui : Option StrategyUi := none
  strategy_event : Option StrategyEvent := none

/-- `build_dashboard_snapshot`. -/
def buildDashboardSnapshot (indexCode indexSymbol : String) (indexQuote : RawQuote)
    (vixQuote : Option RawQuote) (optionChain : RawChain)
    (generatedAt : Timestamps) : Snapshot :=
  let spot := (extractQuotePrice indexQuote).getD 0
  let vix := vixQuote.bind extractQuotePrice
  let rows := flattenOptionChain optionChain
  let optionsSummary := callPutSummary rows
  let gexSection := computeGex rows (if 0 < spot then spot else 1)
  let signalSummary := buildSignalSummary gexSection optionsSummary spot
  let expiries :=
    List.mergeSort (((rows.map (fun r => r.expiry)).filter (fun e => e != "")).dedup)
      (fun a b => decide (a ≤ b))
  let topVolume := (List.mergeSort rows (fun a b => decide (b.volume ≤ a.volume))).take 10
  let topOi :=
    (List.mergeSort rows (fun a b => decide (b.open_interest ≤ a.open_interest))).take 10
  { timestamp_utc := generatedAt.utc
    timestamp_local := generatedAt.loc
    index_code := indexCode
    index_symbol := indexSymbol
    market_spot := if spot = 0 then none else some (pyRound spot 4)
    market_vix := vix.bind (fun v => if v = 0 then none else some (pyRound v 4))
    market_quote := indexQuote
    market_vix_quote := vixQuote
    options_summary := some optionsSummary
    nearest_expiries := expiries.take 5
    top_volume_contracts := topVolume.map contractToCard
    top_open_interest_contracts := topOi.map contractToCard
    raw_contract_count := rows.length
    gex := gexSection
    signals := signalSummary }

/-! ## `app/services/market_snapshot_service.py` — helpers -/

/-- `CHECK_LABELS`. -/
def CHECK_LABELS : List (String × (String × String)) :=
  [("market_open_day", ("交易日", "Market Open Day")),
   ("entry_cutoff", ("入场截止", "Entry Cutoff")),
   ("absolute_cutoff", ("绝对截止", "Absolute Cutoff")),
   ("timing_blackout", ("时段黑窗", "Timing Blackout")),
   ("vix_available", ("VIX可用", "VIX Available")),
   ("vix_floor", ("VIX下限", "VIX Floor")),
   ("vix_spike", ("波动率尖峰", "VIX Spike")),
   ("realized_volatility", ("实现波动率", "Realized Volatility")),
   ("expected_move", ("预期波动", "Expected Move")),
   ("rsi", ("RSI区间", "RSI Range")),
   ("friday_policy", ("周五策略", "Friday Policy")),
   ("consecutive_down_days", ("连续下跌天数", "Consecutive Down Days")),
   ("gap_size", ("开盘缺口", "Gap Size")),
   ("gex_pin", ("GEX锚点", "GEX Pin")),
   ("core_signal", ("核心信号", "Core Signal")),
   ("core_strategy", ("策略可执行", "Core Strategy")),
   ("short_strike_proximity", ("短腿距离", "Short Strike Proximity"))]

/-- An association-list read (Python `dict.get`). -/
def alistGet {α : Type} (m : List (String × α)) (k : String) : Option α :=
  (m.find? (fun kv => kv.1 == k)).map (fun kv => kv.2)

/-- An association-list write (Python `dict.__setitem__`), preserving
insertion order. -/
def alistSet {α : Type} (m : List (String × α)) (k : String) (v : α) :
    List (String × α) :=
  match m with
  | [] => [(k, v)]
  | kv :: rest => if kv.1 == k then (k, v) :: rest else kv :: alistSet rest k v

/-- `_check_label`: a catalogue lookup, defaulting to the underscore-free
name for both languages. -/
def checkLabel (name : String) : String × String :=
  match alistGet CHECK_LABELS name with
  | some lab => lab
  | none => (strUnderscoreToSpace name, strUnderscoreToSpace name)

/-- Python `x or default` on an optional string (both `None` and `""` are
falsy). -/
def pyOr (v : Option String) (default : String) : String :=
  match v with
  | some s => if s = "" then default else s
  | none => default

/-- Python `x or y` where both operands are optional strings. -/
def pyOrOpt (v fallback : Option String) : Option String :=
  match v with
  | some s => if s = "" then fallback else some s
  | none => fallback

/-- `_extract_checks`: the strategy's `checks` dictionary, else the
`tradeable.checks` dictionary, else empty. -/
def extractChecks (strategy : Option StrategyDict) : List (String × CheckPayload) :=
  match strategy with
  | none => []
  | some s =>
    match s.checks with
    | some cs => cs
    | none =>
      match s.tradeable with
      | some t =>
        match t.checks with
        | some cs => cs
        | none => []
      | none => []

/-- The timeline loop of `_build_strategy_ui` (`enumerate(..., start=order)`). -/
def timelineOfChecks (evaluatedAt : Option String) :
    ℕ → List (String × CheckPayload) → List TimelineItem
  | _, [] => []
  | order, nc :: rest =>
    let ok := nc.2.ok.getD false
    let blocking := nc.2.blocking.getD true
    let detail := pyOr nc.2.detail (if ok then "Check passed" else "Check failed")
    let labels := checkLabel nc.1
    { order := order
      name := nc.1
      label_cn := labels.1
      label_en := labels.2
      ok := ok
      blocking := blocking
      detail := detail
      severity := if ok then "pass" else if blocking then "blocker" else "warning"
      ts_local := evaluatedAt } :: timelineOfChecks evaluatedAt (order + 1) rest

/-- `ok` of one check entry, as counted by the `_build_strategy_ui` loop. -/
def checkOk (nc : String × CheckPayload) : Bool := nc.2.ok.getD false

/-- Whether one check entry is a blocking failure. -/
def checkBlockingFail (nc : String × CheckPayload) : Bool :=
  !(nc.2.ok.getD false) && (nc.2.blocking.getD true)

/-- Whether one check entry is an advisory (soft) failure. -/
def checkSoftWarn (nc : String × CheckPayload) : Bool :=
  !(nc.2.ok.getD false) && !(nc.2.blocking.getD true)

/-- The raw decision score of `_build_strategy_ui`, before clamping: the
pass-rate base (fixed 45 when no checks ran), the action bonus/penalty, and
the per-failure penalties. -/
def decisionScoreRaw (total passed blockingFail softWarn : ℕ)
    (actionRaw : String) : ℚ :=
  let base : ℚ := if total = 0 then 45 else (passed : ℚ) / (total : ℚ) * 100
  let withAction :=
    if actionRaw = "TRADE" then base + 8
    else if actionRaw = "NO_TRADE" then base - 4
    else base
  withAction - blockingFail * 12 - softWarn * 4

/-- `_build_strategy_ui`. -/
def buildStrategyUi (strategy : Option StrategyDict)
    (snapshotTimestampLocal : Option String) : StrategyUi :=
  let tradeable := strategy.bind (fun s => s.tradeable)
  let checks := extractChecks strategy
  let actionRaw := strUpper (pyOr (tradeable.bind (fun t => t.action)) "NO_TRADE")
  let primaryReason := pyOr (tradeable.bind (fun t => t.primary_reason)) "No primary reason."
  let evaluatedAt := pyOrOpt (tradeable.bind (fun t => t.evaluated_at_et)) snapshotTimestampLocal
  let timeline := timelineOfChecks evaluatedAt 1 checks
  let passedCount := checks.countP checkOk
  let blockingFailCount := checks.countP checkBlockingFail
  let softWarnCount := checks.countP checkSoftWarn
  let total := timeline.length
  let scoreBase := decisionScoreRaw total passedCount blockingFailCount softWarnCount actionRaw
  { decision_score := pyRound (max 0 (min 100 scoreBase)) 1
    blocking_fail_count := blockingFailCount
    soft_warn_count := softWarnCount
    passed_count := passedCount
    total_checks := total
    action := actionRaw
    primary_reason := primaryReason
    evaluated_at := evaluatedAt
    timeline := timeline }

/-- `_decorate_snapshot` (functionally: returns the decorated snapshot). -/
def decorateSnapshot (snapshot : Snapshot) : Snapshot :=
  let strategyDict := snapshot.strategy.getD {}
  let ui := buildStrategyUi snapshot.strategy (some snapshot.timestamp_local)
  let tradeable := strategyDict.tradeable
  let event : StrategyEvent :=
    { action := pyOr (tradeable.bind (fun t => t.action)) "NO_TRADE"
      primary_reason := pyOr (tradeable.bind (fun t => t.primary_reason)) "No primary reason."
      decision_score := some ui.decision_score
      blocking_fail_count := some ui.blocking_fail_count
      soft_warn_count := some ui.soft_warn_count }
  { snapshot with
    strategy := some { strategyDict with ui := some ui }
    strategy_ui := some ui
    strategy_event := some event }

/-- `_build_unavailable_strategy`. -/
def buildUnavailableStrategy (indexCode nowUtcIso reason : String) : StrategyDict :=
  { core := some { available := false, strategy := "UNAVAILABLE", reason := some reason }
    tradeable := some
      { action := some "NO_TRADE"
        primary_reason := some reason
        reasons := [reason]
        checks := some []
        evaluated_at_et := none }
    checks := some []
    market_inputs := some { index_code := indexCode }
    meta := some
      { source := "app.signals.engine"
        index_code := indexCode
        generated_at_utc := nowUtcIso
        generated_at_et := none
        metrics_source := "unavailable"
        warnings := [reason]
        error := some reason } }

/-! ## `app/services/market_snapshot_service.py` — coordinator state -/

/-- `SnapshotState`. -/
structure SnapshotStateRec where
  snapshot : Option Snapshot := none
  updated_at_epoch : ℚ := 0
  last_error : Option String := none

/-- The mutable coordinator state touched by the claims: per-key snapshot
states, the in-memory history cache, and the durable per-day history log
(a sequence of `(path, line)` appends; the JSON rendering of a line is
modelled by the snapshot value itself). Event/logger sinks are external
collaborators (spec §1) and carry no claim-relevant state. -/
structure ServiceState where
  states : List (String × SnapshotStateRec) := []
  historyCache : List (String × List Snapshot) := []
  durableLog : List (String × Snapshot) := []

/-- The broker client collaborator: both calls may raise a provider error
(`SchwabClientError`, modelled as `Except.error`). -/
structure ClientModel where
  getQuotes : List String → Except String (List (String × RawQuote))
  getOptionChain : String → Except String RawChain

/-- The coordinator's configuration (`MarketSnapshotService.__init__`):
the client, the clamped refresh interval, the strategy mode flag, and the
external `index_config` symbol table consulted by `_resolve_schwab_symbol`. -/
structure Service where
  client : ClientModel
  refresh_seconds : ℤ
  strategy_fast_mode : Bool
  cfgIndexSymbol : String → String

/-- `MarketSnapshotService.__init__`: `refresh_seconds = max(5, int(...))`. -/
def mkService (client : ClientModel) (refreshSeconds : ℤ) (strategyFastMode : Bool)
    (cfgIndexSymbol : String → String) : Service :=
  { client := client
    refresh_seconds := max 5 refreshSeconds
    strategy_fast_mode := strategyFastMode
    cfgIndexSymbol := cfgIndexSymbol }

/-- `INDEX_SYMBOL_MAP`. -/
def INDEX_SYMBOL_MAP : List (String × String) := [("SPX", "$SPX"), ("NDX", "$NDX")]

/-- `VIX_SYMBOL`. -/
def VIX_SYMBOL : String := "$VIX"

/-- `_resolve_schwab_symbol`. -/
def resolveSchwabSymbol (svc : Service) (indexCode : String) : String :=
  match alistGet INDEX_SYMBOL_MAP indexCode with
  | some s => s
  | none => "$" ++ svc.cfgIndexSymbol indexCode

/-- Python truthiness of a quote bucket dictionary. -/
def quoteFieldsEmpty (b : QuoteFields) : Bool :=
  b.lastPrice.isNone && b.last.isNone && b.mark.isNone && b.closePrice.isNone &&
    b.bidPrice.isNone && b.askPrice.isNone

/-- Python truthiness of a `RawQuote` dictionary. -/
def quoteTruthy (q : RawQuote) : Bool :=
  !(quoteFieldsEmpty q.toQuoteFields && q.quote.isNone)

/-- `_extract_quote_bucket`: `quotes.get(symbol) or quotes.get(symbol
without dollar signs)`, defaulting to the empty bucket. -/
def extractQuoteBucket (quotes : List (String × RawQuote)) (symbol : String) :
    RawQuote :=
  let first := alistGet quotes symbol
  let bucket :=
    match first with
    | some b => if quoteTruthy b then some b else alistGet quotes (strDropDollar symbol)
    | none => alistGet quotes (strDropDollar symbol)
  bucket.getD {}

/-- The candidate symbols of `_fetch_option_chain_with_fallback`. -/
def fetchChainCandidates (symbol : String) : List String :=
  [symbol] ++ (if strStartsDollar symbol then [strTail symbol] else [])

/-- The candidate loop of `_fetch_option_chain_with_fallback`: first non-empty
chain wins; any provider error propagates; an empty chain results when every
candidate returns empty. -/
def fetchChainLoop (client : ClientModel) : List String → Except String RawChain
  | [] => .ok {}
  | c :: rest => do
    let chain ← client.getOptionChain c
    if chainTruthy chain then pure chain else fetchChainLoop client rest

/-- `_history_path` (relative to the data directory): calendar-day
partitioned file name. -/
def historyPath (indexCode dayKey : String) : String :=
  "dashboard_snapshots_" ++ strLower indexCode ++ "_" ++ dayKey ++ ".jsonl"

/-- `_write_history`: one line appended to the day-partitioned durable log
under an exclusive lock. -/
def writeHistory (log : List (String × Snapshot)) (indexCode dayKey : String)
    (snapshot : Snapshot) : List (String × Snapshot) :=
  log ++ [(historyPath indexCode dayKey, snapshot)]

/-- The in-memory bounded history append (`_append_memory_history` body):
append, then `del history[:-500]` beyond capacity 500. -/
def histAppend {α : Type} (history : List α) (snapshot : α) : List α :=
  let h := history ++ [snapshot]
  if 500 < h.length then h.drop (h.length - 500) else h

/-- `_append_memory_history` on the history-cache map (`setdefault` then
bounded append). -/
def appendMemoryHistory (hc : List (String × List Snapshot)) (indexCode : String)
    (snapshot : Snapshot) : List (String × List Snapshot) :=
  alistSet hc indexCode (histAppend ((alistGet hc indexCode).getD []) snapshot)

/-! ## `app/services/market_snapshot_service.py` — refresh and reads -/

/-- The per-call environment of one refresh: the wall-clock renderings of
`datetime.now()` / `datetime.now(utc)`, `time.time()`, the `%Y%m%d` day key,
and the outcome of the `build_dashboard_strategy` call (an external
collaborator whose failure the refresh converts into an unavailable
strategy). -/
structure RefreshEnv where
  ts : Timestamps
  nowUtcIso : String
  nowEpoch : ℚ
  dayKey : String
  strategyResult : Except String StrategyDict

/-- The upstream round-trip of `refresh_snapshot` (lines 339–342): quotes for
the index and VIX, then the option chain with de-prefixed fallback. -/
def refreshUpstream (client : ClientModel) (schwabSymbol : String) :
    Except String (List (String × RawQuote) × RawChain) := do
  let quotes ← client.getQuotes [schwabSymbol, VIX_SYMBOL]
  let chain ← fetchChainLoop client (fetchChainCandidates schwabSymbol)
  pure (quotes, chain)

/-- `refresh_snapshot`. On upstream success the assembled snapshot is stored,
appended to the in-memory history and written to the durable log; on a
provider error a well-formed unavailable snapshot is built, stored and
appended to the in-memory history only. -/
def refreshSnapshotModel (svc : Service) (st : ServiceState) (indexCodeRaw : String)
    (env : RefreshEnv) : Snapshot × ServiceState :=
  let indexCode := strUpper indexCodeRaw
  let schwabSymbol := resolveSchwabSymbol svc indexCode
  match refreshUpstream svc.client schwabSymbol with
  | .ok qc =>
    let indexQuote := extractQuoteBucket qc.1 schwabSymbol
    let vixQuote := extractQuoteBucket qc.1 VIX_SYMBOL
    let snapshot0 := buildDashboardSnapshot indexCode schwabSymbol indexQuote
      (if quoteTruthy vixQuote then some vixQuote else none) qc.2 env.ts
    let strategyVal :=
      match env.strategyResult with
      | .ok s => s
      | .error msg =>
        buildUnavailableStrategy indexCode env.nowUtcIso
          ("Strategy compute failed: " ++ msg)
    let snapshot1 :=
      { snapshot0 with
        strategy := some strategyVal
        system := some
          { refresh_seconds := some svc.refresh_seconds
            last_refresh_epoch := some env.nowEpoch
            source := some "schwab"
            error := none } }
    let snapshot2 := decorateSnapshot snapshot1
    let stRec0 := (alistGet st.states indexCode).getD {}
    let stRec :=
      { stRec0 with
        snapshot := some snapshot2
        updated_at_epoch := env.nowEpoch
        last_error := none }
    ( snapshot2,
      { st with
        states := alistSet st.states indexCode stRec
        historyCache := appendMemoryHistory st.historyCache indexCode snapshot2
        durableLog := writeHistory st.durableLog indexCode env.dayKey snapshot2 } )
  | .error exc =>
    let errorSnapshot0 : Snapshot :=
      { timestamp_utc := env.ts.utc
        timestamp_local := env.ts.loc
        index_code := indexCode
        index_symbol := schwabSymbol
        market_spot := none
        market_vix := none
        market_quote := {}
        market_vix_quote := none
        options_summary := none
        nearest_expiries := []
        top_volume_contracts := []
        top_open_interest_contracts := []
        raw_contract_count := 0
        gex := neutralGexResult
        signals :=
          { observation := "UNAVAILABLE"
            direction_bias := "UNKNOWN"
            reasons := [SignalReason.text exc] }
        strategy := some (buildUnavailableStrategy indexCode env.nowUtcIso
          ("Snapshot unavailable: " ++ exc))
        system := some
          { refresh_seconds := some svc.refresh_seconds
            last_refresh_epoch := some env.nowEpoch
            source := some "schwab"
            error := some exc } }
    let errorSnapshot := decorateSnapshot errorSnapshot0
    let stRec0 := (alistGet st.states indexCode).getD {}
    let stRec :=
      { stRec0 with
        snapshot := some errorSnapshot
        updated_at_epoch := env.nowEpoch
        last_error := some exc }
    ( errorSnapshot,
      { st with
        states := alistSet st.states indexCode stRec
        historyCache := appendMemoryHistory st.historyCache indexCode errorSnapshot } )

/-- The stale-copy construction of `get_snapshot` (lines 472–478): a deep
copy whose `system` section gains `stale=true` and
`stale_reason="refresh_in_progress"`. -/
def markStale (snapshot : Snapshot) : Snapshot :=
  let sys := snapshot.system.getD {}
  { snapshot with
    system := some { sys with stale := some true, stale_reason := some "refresh_in_progress" } }

/-- `get_snapshot`, as a sequential projection: the non-blocking acquisition
outcome of the per-key refresh lock is the `refreshLockFree` parameter. In
this single-caller projection the wait branch (no cached snapshot, lock held)
re-reads an unchanged state and therefore always reaches the last-resort
synchronous refresh; the interleaved behaviour is the `SingleFlight` system
below. -/
def getSnapshotModel (svc : Service) (st : ServiceState) (indexCodeRaw : String)
    (nowEpoch : ℚ) (refreshLockFree : Bool) (env : RefreshEnv) :
    Snapshot × ServiceState :=
  let indexCode := strUpper indexCodeRaw
  let stateRec := alistGet st.states indexCode
  let snapshotOpt := stateRec.bind (fun s => s.snapshot)
  match snapshotOpt with
  | some snap =>
    if nowEpoch - ((stateRec.map (fun s => s.updated_at_epoch)).getD 0)
        < (svc.refresh_seconds : ℚ) then
      (snap, st)
    else if refreshLockFree then
      refreshSnapshotModel svc st indexCode env
    else
      (markStale snap, st)
  | none =>
    if refreshLockFree then
      refreshSnapshotModel svc st indexCode env
    else
      refreshSnapshotModel svc st indexCode env

/-- `get_history`: clamp the limit into `[1, 1000]`, take the most recent
entries, most recent first; empty when no history exists for the key. -/
def getHistoryModel (st : ServiceState) (indexCodeRaw : String) (limit : ℤ) :
    List Snapshot :=
  let indexCode := strUpper indexCodeRaw
  let lim := max 1 (min 1000 limit)
  let history := (alistGet st.historyCache indexCode).getD []
  if history.isEmpty then []
  else (history.drop (history.length - lim.toNat)).reverse

/-! ## `get_snapshot` under concurrency — the single-flight transition system

Interleaved executions of `get_snapshot` (lines 455–488) for one instrument
key are embedded as a small-step system. Snapshots are abstracted to
generation numbers: generation 0 is the pre-existing cached snapshot of the
claim's scenario, and the `n`-th upstream fetch of the burst produces
generation `n ≥ 1`. Within the burst window (shorter than the refresh
interval, which `__init__` clamps to at least 5 seconds) the generation-0
snapshot is stale and every snapshot stored by a refresh during the burst is
fresh. A refresh body that hits a provider error still stores and returns a
well-formed unavailable snapshot (`refresh_snapshot`'s except branch), so
both outcomes are one `refreshDone` step. -/

namespace SingleFlight

/-- The shared per-key state: the per-key refresh lock, the cached snapshot
generation (`SnapshotState.snapshot`), and the number of upstream fetch
round-trips issued so far. -/
structure SysState where
  lockHeld : Bool
  cached : Option ℕ
  fetchCount : ℕ
deriving DecidableEq

/-- Freshness of a cached generation during the burst window. -/
def isFresh (g : ℕ) : Bool := decide (1 ≤ g)

/-- What a finished `get_snapshot` call returned. There is no error
alternative: every path of the source returns a snapshot dictionary. -/
inductive CallerResult where
  | freshHit (g : ℕ)
  | refreshed (g : ℕ)
  | staleCopy (g : ℕ)
  | cachedAfterWait (g : ℕ)
deriving DecidableEq

/-- Program counter of one `get_snapshot` caller. `entry` is about to run the
state-read critical section (lines 457–462); `tryAcquire snap` holds the
snapshot reference it read and is about to try the non-blocking acquire
(line 464); `refreshing` is inside the lock-protected refresh body;
`waiting` is the timed wait of line 481; `refreshingUnlocked` is the
last-resort synchronous refresh of line 488, which runs without the lock. -/
inductive CallerPC where
  | entry
  | tryAcquire (snap : Option ℕ)
  | refreshing (g : ℕ)
  | waiting
  | refreshingUnlocked (g : ℕ)
  | done (r : CallerResult)
deriving DecidableEq

/-- One caller's atomic steps against the shared state. -/
inductive CStep : SysState → CallerPC → SysState → CallerPC → Prop where
  | entryFresh (s : SysState) (g : ℕ) :
      s.cached = some g → isFresh g = true →
      CStep s .entry s (.done (.freshHit g))
  | entryStale (s : SysState) (g : ℕ) :
      s.cached = some g → isFresh g = false →
      CStep s .entry s (.tryAcquire (some g))
  | entryMiss (s : SysState) :
      s.cached = none →
      CStep s .entry s (.tryAcquire none)
  | acquire (s : SysState) (snap : Option ℕ) :
      s.lockHeld = false →
      CStep s (.tryAcquire snap)
        { lockHeld := true, cached := s.cached, fetchCount := s.fetchCount + 1 }
        (.refreshing (s.fetchCount + 1))
  | acquireFailStale (s : SysState) (g : ℕ) :
      s.lockHeld = true →
      CStep s (.tryAcquire (some g)) s (.done (.staleCopy g))
  | acquireFailNone (s : SysState) :
      s.lockHeld = true →
      CStep s (.tryAcquire none) s .waiting
  | refreshDone (s : SysState) (g : ℕ) :
      CStep s (.refreshing g)
        { lockHeld := false, cached := some g, fetchCount := s.fetchCount }
        (.done (.refreshed g))
  | waitServed (s : SysState) (g : ℕ) :
      s.lockHeld = false → s.cached = some g →
      CStep s .waiting s (.done (.cachedAfterWait g))
  | waitExpired (s : SysState) :
      CStep s .waiting
        { lockHeld := s.lockHeld, cached := s.cached, fetchCount := s.fetchCount + 1 }
        (.refreshingUnlocked (s.fetchCount + 1))
  | unlockedDone (s : SysState) (g : ℕ) :
      CStep s (.refreshingUnlocked g)
        { lockHeld := s.lockHeld, cached := some g, fetchCount := s.fetchCount }
        (.done (.refreshed g))

/-- A system configuration: shared state plus every caller's program counter. -/
def Config : Type := SysState × List CallerPC

/-- One interleaving step: some caller steps, the others stand still. -/
inductive Step : Config → Config → Prop where
  | mk (s s2 : SysState) (pre post : List CallerPC) (pc pc2 : CallerPC) :
      CStep s pc s2 pc2 →
      Step (s, pre ++ pc :: post) (s2, pre ++ pc2 :: post)

/-- Reachability under arbitrary interleaving. -/
def Reach : Config → Config → Prop := Relation.ReflTransGen Step

/-- The claim's scenario: `n` concurrent `get_snapshot` callers arrive for a
key whose cached snapshot (generation 0) is stale; the refresh lock is free
and no fetch has been issued. -/
def initConfig (n : ℕ) : Config :=
  ({ lockHeld := false, cached := some 0, fetchCount := 0 }, List.replicate n .entry)

/-- Whether a caller is inside the lock-protected refresh body. -/
def pcRefreshing : CallerPC → Bool
  | .refreshing _ => true
  | _ => false

/-- Whether a caller is inside any refresh body (lock-protected or the
line-488 unlocked last resort). -/
def pcInRefreshBody : CallerPC → Bool
  | .refreshing _ => true
  | .refreshingUnlocked _ => true
  | _ => false

/-- The inductive invariant of the stale-key burst scenario. -/
structure Inv (c : Config) : Prop where
  cached_some : ∃ g, c.1.cached = some g ∧ (g = 0 ∨ (1 ≤ g ∧ g ≤ c.1.fetchCount))
  lock_free : c.1.lockHeld = false → c.2.countP pcRefreshing = 0
  lock_held : c.1.lockHeld = true → c.2.countP pcRefreshing = 1
  no_waiting : CallerPC.waiting ∉ c.2
  no_unlocked : ∀ g : ℕ, CallerPC.refreshingUnlocked g ∉ c.2
  tryAcquire_zero : ∀ snap, CallerPC.tryAcquire snap ∈ c.2 → snap = some 0
  refreshing_gen : ∀ g : ℕ, CallerPC.refreshing g ∈ c.2 → 1 ≤ g ∧ g = c.1.fetchCount
  done_ok : ∀ r, CallerPC.done r ∈ c.2 →
    r = .staleCopy 0 ∨
      ∃ g, 1 ≤ g ∧ g ≤ c.1.fetchCount ∧ (r = .refreshed g ∨ r = .freshHit g)

end SingleFlight

/-! ## Concrete fixtures used by the witnesses and counterexamples -/

/-- A client whose quote call raises a provider error. -/
def errClientFx : ClientModel :=
  { getQuotes := fun _ => Except.error "boom"
    getOptionChain := fun _ => Except.ok {} }

/-- A client whose calls succeed with empty payloads. -/
def okClientFx : ClientModel :=
  { getQuotes := fun _ => Except.ok []
    getOptionChain := fun _ => Except.ok {} }

/-- A coordinator over the failing client. -/
def svcErrFx : Service :=
  { client := errClientFx
    refresh_seconds := 12
    strategy_fast_mode := true
    cfgIndexSymbol := fun _ => "SPX" }

/-- A coordinator over the succeeding client. -/
def svcOkFx : Service :=
  { client := okClientFx
    refresh_seconds := 12
    strategy_fast_mode := true
    cfgIndexSymbol := fun _ => "SPX" }

/-- A refresh environment fixture. -/
def envFx : RefreshEnv :=
  { ts := { utc := "2026-01-01T00:00:00+00:00", loc := "2026-01-01 00:00:00" }
    nowUtcIso := "2026-01-01T00:00:00+00:00"
    nowEpoch := 100
    dayKey := "20260101"
    strategyResult := Except.ok {} }

/-- A minimal cached snapshot fixture. -/
def snapFx : Snapshot :=
  { timestamp_utc := "2025-12-31T23:59:00+00:00"
    timestamp_local := "2025-12-31 23:59:00"
    index_code := "SPX"
    index_symbol := "$SPX"
    market_spot := some 5000
    market_vix := none
    market_quote := {}
    market_vix_quote := none
    options_summary := none
    nearest_expiries := []
    top_volume_contracts := []
    top_open_interest_contracts := []
    raw_contract_count := 0
    gex := neutralGexResult
    signals := { observation := "UNAVAILABLE", direction_bias := "UNKNOWN", reasons := [] }
    strategy := none
    system := some
      { refresh_seconds := some 12
        last_refresh_epoch := some 0
        source := some "schwab"
        error := none } }

/-- A service state holding `snapFx` for key `SPX`, last updated at epoch 0. -/
def stateFx : ServiceState :=
  { states := [("SPX", { snapshot := some snapFx, updated_at_epoch := 0, last_error := none })]
    historyCache := []
    durableLog := [] }

/-! ## Shared list lemmas -/

/-- Keeping the last `n` elements is taking `n` from the reversal. -/
theorem drop_sub_eq_reverse_take {α : Type} (l : List α) (n : ℕ) :
    l.drop (l.length - n) = (l.reverse.take n).reverse := by
  rw [List.take_reverse, List.reverse_reverse]

/-- Truncating the second operand of an append to `n` does not change the
first `n` elements of the append. -/
theorem take_append_take {α : Type} (n : ℕ) (a b : List α) :
    (a ++ b.take n).take n = (a ++ b).take n := by
  rw [List.take_append_eq_append_take, List.take_append_eq_append_take,
    List.take_take]
  have hmin : (n - a.length) ⊓ n = n - a.length :=
    inf_eq_left.mpr (Nat.sub_le n a.length)
  rw [hmin]

/-- The bounded history append never exceeds the capacity. -/
theorem histAppend_length_le {α : Type} (h : List α) (s : α) :
    (histAppend h s).length ≤ max 500 h.length := by
  unfold histAppend
  by_cases hc : 500 < (h ++ [s]).length
  · simp only [if_pos hc, List.length_drop]
    omega
  · simp only [if_neg hc]
    simp at hc ⊢
    omega

/-- Under the capacity, the bounded append keeps exactly the last 500
elements of the appended list. -/
theorem histAppend_eq_drop {α : Type} (h : List α) (s : α) (hle : h.length ≤ 500) :
    histAppend h s = (h ++ [s]).drop ((h ++ [s]).length - 500) := by
  unfold histAppend
  by_cases hc : 500 < (h ++ [s]).length
  · simp only [if_pos hc]
  · simp only [if_neg hc]
    simp only [List.length_append, List.length_singleton] at hc
    have : h.length + 1 - 500 = 0 := by omega
    simp [this]

/-- Folding bounded appends from a buffer within capacity keeps exactly the
last 500 elements of everything appended. -/
theorem foldl_histAppend_eq {α : Type} (l : List α) :
    ∀ h : List α, h.length ≤ 500 →
      List.foldl histAppend h l = (h ++ l).drop ((h ++ l).length - 500) := by
  induction l with
  | nil =>
    intro h hle
    have : h.length - 500 = 0 := by omega
    simp [this]
  | cons x l ih =>
    intro h hle
    have hlen : (histAppend h x).length ≤ 500 := by
      have := histAppend_length_le h x
      omega
    rw [List.foldl_cons, ih (histAppend h x) hlen, histAppend_eq_drop h x hle]
    rw [drop_sub_eq_reverse_take, drop_sub_eq_reverse_take, drop_sub_eq_reverse_take,
      List.reverse_append, List.reverse_reverse, take_append_take]
    have hassoc : h ++ x :: l = (h ++ [x]) ++ l := by simp
    rw [hassoc]
    simp [List.reverse_append]

/-- C8: for every instrument key and every sequence of appends through
`_append_memory_history`, the in-memory history buffer never holds more than
500 snapshots; and after appending 501 snapshots (starting from the empty
buffer created by `setdefault`) it holds exactly the 500 most recent ones in
insertion order — the oldest one evicted. -/
theorem history_capacity_invariant {α : Type} (l : List α) :
    (List.foldl histAppend ([] : List α) l).length ≤ 500 ∧
    (l.length = 501 → List.foldl histAppend ([] : List α) l = l.drop 1) := by
  have hfold := foldl_histAppend_eq l [] (by simp)
  simp only [List.nil_append] at hfold
  constructor
  · rw [hfold, List.length_drop]
    omega
  · intro h501
    rw [hfold, h501]

/-- Witness for C8 at a concrete run of 501 appends. -/
theorem history_capacity_invariant_witness :
    (List.range 501).length = 501 ∧
      List.foldl histAppend ([] : List ℕ) (List.range 501) = (List.range 501).drop 1 :=
  ⟨by simp, (history_capacity_invariant (List.range 501)).2 (by simp)⟩

/-- C10: `get_history` clamps the limit into `[1, 1000]`, returns the
`min(clamped limit, history length)` most recent snapshots ordered most
recent first (the i-th returned element is the i-th counting from the end of
the stored history), and returns the empty list when no history exists for
the key; being a total function, it never raises. -/
theorem get_history_spec (st : ServiceState) (indexCodeRaw : String) (limit : ℤ) :
    (getHistoryModel st indexCodeRaw limit).length =
      min (max 1 (min 1000 limit)).toNat
        ((alistGet st.historyCache (strUpper indexCodeRaw)).getD []).length ∧
    (∀ i : ℕ, i < (getHistoryModel st indexCodeRaw limit).length →
      (getHistoryModel st indexCodeRaw limit)[i]? =
        ((alistGet st.historyCache (strUpper indexCodeRaw)).getD
          [])[((alistGet st.historyCache (strUpper indexCodeRaw)).getD []).length - 1 - i]?) ∧
    (alistGet st.historyCache (strUpper indexCodeRaw) = none →
      getHistoryModel st indexCodeRaw limit = []) := by
  by_cases hemp : ((alistGet st.historyCache (strUpper indexCodeRaw)).getD []) = []
  · have hres : getHistoryModel st indexCodeRaw limit = [] := by
      simp [getHistoryModel, hemp]
    refine ⟨?_, ?_, ?_⟩
    · simp [hres, hemp]
    · intro i hi
      rw [hres] at hi
      simp at hi
    · intro _
      exact hres
  · have hres : getHistoryModel st indexCodeRaw limit =
        (((alistGet st.historyCache (strUpper indexCodeRaw)).getD []).drop
          (((alistGet st.historyCache (strUpper indexCodeRaw)).getD []).length -
            (max 1 (min 1000 limit)).toNat)).reverse := by
      simp [getHistoryModel, List.isEmpty_iff, hemp]
    rw [hres]
    refine ⟨?_, ?_, ?_⟩
    · rw [List.length_reverse, List.length_drop]
      omega
    · intro i hi
      rw [List.length_reverse, List.length_drop] at hi
      rw [List.getElem?_reverse (by rw [List.length_drop]; omega)]
      rw [List.length_drop, List.getElem?_drop]
      have heq :
          ((alistGet st.historyCache (strUpper indexCodeRaw)).getD []).length -
              (max 1 (min 1000 limit)).toNat +
              (((alistGet st.historyCache (strUpper indexCodeRaw)).getD []).length -
                (((alistGet st.historyCache (strUpper indexCodeRaw)).getD []).length -
                  (max 1 (min 1000 limit)).toNat) - 1 - i) =
            ((alistGet st.historyCache (strUpper indexCodeRaw)).getD []).length - 1 - i := by
        omega
      rw [heq]
    · intro hnone
      rw [hnone] at hemp
      simp at hemp

/-- Witness for C10 at a concrete empty-state input. -/
theorem get_history_spec_witness :
    (getHistoryModel {} "SPX" 0).length =
      min (max 1 (min 1000 (0 : ℤ))).toNat
        ((alistGet ({} : ServiceState).historyCache (strUpper "SPX")).getD []).length ∧
      getHistoryModel {} "SPX" 0 = [] :=
  ⟨(get_history_spec {} "SPX" 0).1, (get_history_spec {} "SPX" 0).2.2 rfl⟩

/-! ## GEX engine claims -/

/-- Rows that all fail the open-interest filter contribute nothing. -/
theorem foldl_gexStep_skip (spotPrice : ℚ) (rows : List ContractRow) :
    ∀ acc : GexMaps, (∀ r ∈ rows, r.open_interest ≤ 0) →
      rows.foldl (gexStep spotPrice) acc = acc := by
  induction rows with
  | nil => intro acc _; rfl
  | cons r rows ih =>
    intro acc hall
    rw [List.foldl_cons]
    have hstep : gexStep spotPrice acc r = acc := by
      unfold gexStep
      rw [if_pos (Or.inl (hall r (by simp)))]
    rw [hstep]
    exact ih acc (fun x hx => hall x (by simp [hx]))

/-- C7: for every contract list in which every contract has non-positive open
interest, `_compute_gex` accumulates no exposure and returns the neutral
result: direction bias `UNKNOWN` and no pin. -/
theorem zero_open_interest_unknown (rows : List ContractRow) (spotPrice : ℚ)
    (h : ∀ r ∈ rows, r.open_interest ≤ 0) :
    (computeGex rows spotPrice).direction_bias = "UNKNOWN" ∧
      (computeGex rows spotPrice).pin = none := by
  unfold computeGex
  rw [foldl_gexStep_skip spotPrice rows ⟨[], [], []⟩ h]
  simp [neutralGexResult]

/-- Witness for C7 at a one-contract list with zero open interest. -/
theorem zero_open_interest_unknown_witness :
    (∀ r ∈ [rowOfContract "CALL" "2026-01-01" 0 5000
        { openInterest := some 0, gamma := some 1 }], r.open_interest ≤ 0) ∧
      (computeGex [rowOfContract "CALL" "2026-01-01" 0 5000
        { openInterest := some 0, gamma := some 1 }] 5000).direction_bias = "UNKNOWN" ∧
      (computeGex [rowOfContract "CALL" "2026-01-01" 0 5000
        { openInterest := some 0, gamma := some 1 }] 5000).pin = none := by
  have hoi : ∀ r ∈ [rowOfContract "CALL" "2026-01-01" 0 5000
      { openInterest := some 0, gamma := some 1 }], r.open_interest ≤ 0 := by
    intro r hr
    rw [List.mem_singleton] at hr
    rw [hr]
    simp [rowOfContract, safeFloat]
  exact ⟨hoi, zero_open_interest_unknown _ 5000 hoi⟩

/-- C5 evaluation helper: the one-CALL scenario contract, flattened. -/
theorem c5_eval :
    (computeGex [rowOfContract "CALL" "2026-02-09" 3 5000
        { gamma := some (1/500), openInterest := some 1000 }] 5000).pin = some 5000 ∧
    (computeGex [rowOfContract "CALL" "2026-02-09" 3 5000
        { gamma := some (1/500), openInterest := some 1000 }] 5000).net_gex = 5000000000 ∧
    (computeGex [rowOfContract "CALL" "2026-02-09" 3 5000
        { gamma := some (1/500), openInterest := some 1000 }] 5000).direction_bias
      = "NEUTRAL_PIN" ∧
    (computeGex [rowOfContract "CALL" "2026-02-09" 3 5000
        { gamma := some (1/500), openInterest := some 1000 }] 5000).distance_to_pin
      = some 0 := by
  norm_num [computeGex, gexStep, addToMap, rowOfContract, safeFloat, pyMaxBy, pyMinBy,
    pyRound, roundHalfEven, neutralGexResult]

/-- C5 counterexample: on the spec's scenario (one CALL, strike 5000, OI 1000,
gamma 0.002, spot 5000) the accumulated exposure is
`0.002 × 1000 × 100 × 5000² = 5.0e9`, not the claimed `5.0e11`. -/
theorem gex_scenario_counterexample :
    (computeGex [rowOfContract "CALL" "2026-02-09" 3 5000
        { gamma := some (1/500), openInterest := some 1000 }] 5000).net_gex = 5000000000 ∧
      (5000000000 : ℚ) ≠ 500000000000 := by
  refine ⟨c5_eval.2.1, by norm_num⟩

/-- C5 (amended): the scenario yields raw exposure
`0.002 × 1000 × 100 × 5000² = 5.0e9` on the call side, pin 5000, net exposure
`5.0e9`, and bias `NEUTRAL_PIN` at distance 0. -/
theorem gex_scenario_amended :
    (1/500 : ℚ) * 1000 * 100 * 5000 ^ 2 = 5000000000 ∧
    (computeGex [rowOfContract "CALL" "2026-02-09" 3 5000
        { gamma := some (1/500), openInterest := some 1000 }] 5000).pin = some 5000 ∧
    (computeGex [rowOfContract "CALL" "2026-02-09" 3 5000
        { gamma := some (1/500), openInterest := some 1000 }] 5000).net_gex = 5000000000 ∧
    (computeGex [rowOfContract "CALL" "2026-02-09" 3 5000
        { gamma := some (1/500), openInterest := some 1000 }] 5000).direction_bias
      = "NEUTRAL_PIN" ∧
    (computeGex [rowOfContract "CALL" "2026-02-09" 3 5000
        { gamma := some (1/500), openInterest := some 1000 }] 5000).distance_to_pin
      = some 0 :=
  ⟨by norm_num, c5_eval.1, c5_eval.2.1, c5_eval.2.2.1, c5_eval.2.2.2⟩

/-- C6 counterexample: with the exposure held at 0 (one of the quantified
exposure values of the claim) the pin-selection score is constantly 0, so it
does not strictly decrease as the distance to spot grows. -/
theorem pin_score_counterexample :
    (0 : ℚ) < 1 ∧ |(1 : ℚ) - 1| < |(2 : ℚ) - 1| ∧ pinScore 1 1 0 = pinScore 1 2 0 := by
  norm_num [pinScore]

/-- C6 (amended): for every spot price > 0 and every fixed positive exposure
value, the pin-selection score strictly decreases as the absolute distance
`|strike − spot|` increases. -/
theorem pin_score_strict_anti (spotPrice gex s1 s2 : ℚ) (hspot : 0 < spotPrice)
    (hg : 0 < gex) (hd : |s1 - spotPrice| < |s2 - spotPrice|) :
    pinScore spotPrice s2 gex < pinScore spotPrice s1 gex := by
  unfold pinScore
  have hm : (0 : ℚ) < max spotPrice 1 := lt_max_of_lt_right one_pos
  have h1 : |s1 - spotPrice| / max spotPrice 1 < |s2 - spotPrice| / max spotPrice 1 :=
    div_lt_div_of_pos_right hd hm
  have hpow : (|s1 - spotPrice| / max spotPrice 1) ^ 5
      < (|s2 - spotPrice| / max spotPrice 1) ^ 5 :=
    pow_lt_pow_left₀ h1 (by positivity) (by norm_num)
  have hA : (0 : ℚ) < (|s1 - spotPrice| / max spotPrice 1) ^ 5 + 1 / 1000000000000 := by
    positivity
  exact div_lt_div_of_pos_left hg hA (by linarith)

/-- Witness for C6 (amended) at spot 1, exposure 1, strikes 1 and 3. -/
theorem pin_score_strict_anti_witness :
    (0 : ℚ) < 1 ∧ |(1 : ℚ) - 1| < |(3 : ℚ) - 1| ∧ pinScore 1 3 1 < pinScore 1 1 1 :=
  ⟨one_pos, by norm_num, pin_score_strict_anti 1 1 1 3 one_pos one_pos (by norm_num)⟩

/-- C3 counterexample: with a zero (absent/non-positive) spot price but a
non-empty chain, `build_dashboard_snapshot` substitutes a spot of 1.0 and the
GEX section is not the neutral result: it reports a pin and nonzero net
exposure instead of `pin = none`, bias `UNKNOWN`, net 0. -/
theorem zero_spot_counterexample :
    extractQuotePrice ({} : RawQuote) = none ∧
    (buildDashboardSnapshot "SPX" "$SPX" {} none
        { callExpDateMap :=
            [("2026-01-01:1", [(some 1, [{ gamma := some 1, openInterest := some 1 }])])]
          putExpDateMap := [] } ⟨"", ""⟩).gex.pin = some 1 ∧
    (buildDashboardSnapshot "SPX" "$SPX" {} none
        { callExpDateMap :=
            [("2026-01-01:1", [(some 1, [{ gamma := some 1, openInterest := some 1 }])])]
          putExpDateMap := [] } ⟨"", ""⟩).gex.net_gex = 100 ∧
    some (1 : ℚ) ≠ none ∧ (100 : ℚ) ≠ 0 := by
  refine ⟨rfl, ?_, ?_, by simp, by norm_num⟩ <;>
    norm_num [buildDashboardSnapshot, extractQuotePrice, quoteFieldsCandidates, safeFloat,
      flattenOptionChain, flattenSide, rowOfContract, computeGex, gexStep, addToMap,
      pyMaxBy, pyMinBy, pyRound, roundHalfEven, neutralGexResult]

/-- C3 (amended): an empty option chain yields the defined neutral GEX result
(no pin, bias `UNKNOWN`, no walls, net exposure 0) for every quote input; a
zero spot price never raises (the engine substitutes 1.0) but does not by
itself force the neutral result. -/
theorem empty_chain_neutral (indexCode indexSymbol : String) (indexQuote : RawQuote)
    (vixQuote : Option RawQuote) (ts : Timestamps) :
    (buildDashboardSnapshot indexCode indexSymbol indexQuote vixQuote
      { callExpDateMap := [], putExpDateMap := [] } ts).gex = neutralGexResult := by
  simp [buildDashboardSnapshot, flattenOptionChain, flattenSide, computeGex]

/-! ## Check-pipeline decision-score claims -/

/-- Rounding fixes a rational that is integral at the given precision. -/
theorem roundHalfEven_intCast (z : ℤ) : roundHalfEven (z : ℚ) = z := by
  unfold roundHalfEven
  rw [Int.floor_intCast]
  norm_num

/-- `pyRound` fixes a rational that is integral at the given precision. -/
theorem pyRound_int_mul (d : ℕ) (q : ℚ) (z : ℤ) (h : q * 10 ^ d = (z : ℚ)) :
    pyRound q d = q := by
  unfold pyRound
  rw [h, roundHalfEven_intCast, ← h]
  have hp : ((10 : ℚ) ^ d) ≠ 0 := by positivity
  field_simp

/-- The strategy-UI timeline has one entry per check. -/
theorem timelineOfChecks_length (evaluatedAt : Option String) :
    ∀ (order : ℕ) (checks : List (String × CheckPayload)),
      (timelineOfChecks evaluatedAt order checks).length = checks.length := by
  intro order checks
  induction checks generalizing order with
  | nil => rfl
  | cons nc rest ih =>
    simp only [timelineOfChecks, List.length_cons, ih]

/-- C4 counterexample: with 0 checks configured and the default action
`NO_TRADE`, the decision score is `45 − 4 = 41`, not the fixed neutral
baseline 45. -/
theorem decision_score_zero_checks_counterexample :
    (buildStrategyUi none none).decision_score = 41 ∧ (41 : ℚ) ≠ 45 := by
  constructor
  · have h0 : (buildStrategyUi none none).decision_score
        = pyRound (max 0 (min 100 (decisionScoreRaw 0 0 0 0 "NO_TRADE"))) 1 := rfl
    have hne1 : ("NO_TRADE" : String) ≠ "TRADE" := by decide
    rw [h0]
    norm_num [decisionScoreRaw, hne1, pyRound, roundHalfEven]
  · norm_num

/-- C4 (amended): with 0 checks configured the raw base is the fixed neutral
baseline 45 but the reported decision score still gets the action adjustment
(53 for `TRADE`, 41 for `NO_TRADE`, 45 otherwise); with at least one check,
all checks passing and action `TRADE`, the decision score is exactly 100
after clamping although the raw formula gives 108. -/
theorem decision_score_boundary (strategy : Option StrategyDict)
    (tsLocal : Option String) :
    (extractChecks strategy = [] →
      (buildStrategyUi strategy tsLocal).decision_score =
        if (buildStrategyUi strategy tsLocal).action = "TRADE" then 53
        else if (buildStrategyUi strategy tsLocal).action = "NO_TRADE" then 41
        else 45) ∧
    (extractChecks strategy ≠ [] →
      (∀ c ∈ extractChecks strategy, checkOk c = true) →
      (buildStrategyUi strategy tsLocal).action = "TRADE" →
      (buildStrategyUi strategy tsLocal).decision_score = 100) := by
  constructor
  · intro hchecks
    have hTN : ("TRADE" : String) ≠ "NO_TRADE" := by decide
    have hNT : ("NO_TRADE" : String) ≠ "TRADE" := by decide
    simp only [buildStrategyUi, hchecks, timelineOfChecks, List.countP_nil,
      List.length_nil, decisionScoreRaw, if_pos rfl]
    by_cases h1 : strUpper (pyOr ((strategy.bind fun s => s.tradeable).bind
        fun t => t.action) "NO_TRADE") = "TRADE"
    · simp only [h1, hTN, if_true, if_false, ite_true, ite_false, if_pos rfl, if_neg hTN]
      norm_num [pyRound, roundHalfEven]
    · by_cases h2 : strUpper (pyOr ((strategy.bind fun s => s.tradeable).bind
          fun t => t.action) "NO_TRADE") = "NO_TRADE"
      · simp only [h2, hNT, if_false, if_true, ite_false, ite_true, if_neg hNT, if_pos rfl]
        norm_num [pyRound, roundHalfEven]
      · simp only [if_neg h1, if_neg h2]
        norm_num [pyRound, roundHalfEven]
  · intro hne hall hact
    have hact2 : strUpper (pyOr ((strategy.bind fun s => s.tradeable).bind
        fun t => t.action) "NO_TRADE") = "TRADE" := hact
    have hL : (extractChecks strategy).length ≠ 0 := by
      simpa [List.length_eq_zero] using hne
    have hpassed : (extractChecks strategy).countP checkOk
        = (extractChecks strategy).length := List.countP_eq_length.mpr hall
    have hbf : (extractChecks strategy).countP checkBlockingFail = 0 :=
      List.countP_eq_zero.mpr (fun c hc => by
        have hok := hall c hc
        simp only [checkOk] at hok
        simp [checkBlockingFail, hok])
    have hsw : (extractChecks strategy).countP checkSoftWarn = 0 :=
      List.countP_eq_zero.mpr (fun c hc => by
        have hok := hall c hc
        simp only [checkOk] at hok
        simp [checkSoftWarn, hok])
    simp only [buildStrategyUi, hact2, timelineOfChecks_length, hpassed, hbf, hsw,
      decisionScoreRaw, if_pos rfl, if_neg hL]
    rw [div_self (by exact_mod_cast hL)]
    norm_num [pyRound, roundHalfEven]

/-- Witness for C4 at a zero-check strategy and at a one-passing-check
`TRADE` strategy. -/
theorem decision_score_boundary_witness :
    ((buildStrategyUi none none).decision_score =
      if (buildStrategyUi none none).action = "TRADE" then 53
      else if (buildStrategyUi none none).action = "NO_TRADE" then 41
      else 45) ∧
    (buildStrategyUi (some
        { checks := some [("gex_pin", { ok := some true })]
          tradeable := some { action := some "TRADE" } }) none).decision_score = 100 :=
  ⟨(decision_score_boundary none none).1 rfl,
   (decision_score_boundary (some
      { checks := some [("gex_pin", { ok := some true })]
        tradeable := some { action := some "TRADE" } }) none).2
     (by
      have hred : extractChecks (some
          ({ checks := some [("gex_pin", { ok := some true })]
             tradeable := some { action := some "TRADE" } } : StrategyDict))
          = [("gex_pin", { ok := some true })] := rfl
      rw [hred]
      simp)
     (fun c hc => by
      have hred : extractChecks (some
          ({ checks := some [("gex_pin", { ok := some true })]
             tradeable := some { action := some "TRADE" } } : StrategyDict))
          = [("gex_pin", { ok := some true })] := rfl
      rw [hred, List.mem_singleton] at hc
      rw [hc]
      rfl)
     (by decide)⟩

/-! ## Coordinator history-effect claims -/

/-- C2 (amended): a successfully completed refresh appends the resulting
snapshot both to the in-memory bounded history and as one line to the
calendar-day-partitioned durable log; a refresh completed by a provider
error appends the resulting unavailable snapshot to the in-memory history
only, leaving the durable log unchanged. -/
theorem refresh_history_effects (svc : Service) (st : ServiceState)
    (indexCodeRaw : String) (env : RefreshEnv) :
    (∀ qc, refreshUpstream svc.client
        (resolveSchwabSymbol svc (strUpper indexCodeRaw)) = Except.ok qc →
      (refreshSnapshotModel svc st indexCodeRaw env).2.durableLog =
          st.durableLog ++ [(historyPath (strUpper indexCodeRaw) env.dayKey,
            (refreshSnapshotModel svc st indexCodeRaw env).1)] ∧
        (refreshSnapshotModel svc st indexCodeRaw env).2.historyCache =
          appendMemoryHistory st.historyCache (strUpper indexCodeRaw)
            (refreshSnapshotModel svc st indexCodeRaw env).1) ∧
    (∀ e, refreshUpstream svc.client
        (resolveSchwabSymbol svc (strUpper indexCodeRaw)) = Except.error e →
      (refreshSnapshotModel svc st indexCodeRaw env).2.durableLog = st.durableLog ∧
        (refreshSnapshotModel svc st indexCodeRaw env).2.historyCache =
          appendMemoryHistory st.historyCache (strUpper indexCodeRaw)
            (refreshSnapshotModel svc st indexCodeRaw env).1) := by
  constructor
  · intro qc hok
    simp only [refreshSnapshotModel, hok, writeHistory]
    constructor <;> trivial
  · intro e herr
    simp only [refreshSnapshotModel, herr]
    constructor <;> trivial

/-- Witness for C2 (amended), exercising both the successful branch and the
provider-error branch at concrete fixtures. -/
theorem refresh_history_effects_witness :
    ((refreshSnapshotModel svcOkFx stateFx "SPX" envFx).2.durableLog =
        stateFx.durableLog ++ [(historyPath (strUpper "SPX") envFx.dayKey,
          (refreshSnapshotModel svcOkFx stateFx "SPX" envFx).1)] ∧
      (refreshSnapshotModel svcOkFx stateFx "SPX" envFx).2.historyCache =
        appendMemoryHistory stateFx.historyCache (strUpper "SPX")
          (refreshSnapshotModel svcOkFx stateFx "SPX" envFx).1) ∧
    ((refreshSnapshotModel svcErrFx stateFx "SPX" envFx).2.durableLog =
        stateFx.durableLog ∧
      (refreshSnapshotModel svcErrFx stateFx "SPX" envFx).2.historyCache =
        appendMemoryHistory stateFx.historyCache (strUpper "SPX")
          (refreshSnapshotModel svcErrFx stateFx "SPX" envFx).1) :=
  ⟨(refresh_history_effects svcOkFx stateFx "SPX" envFx).1 ([], {}) rfl,
   (refresh_history_effects svcErrFx stateFx "SPX" envFx).2 "boom" rfl⟩

/-- C2 counterexample: a refresh completed by a provider error replaces the
cached state and appends the unavailable snapshot to the in-memory history,
but writes no line to the durable log — starting from the empty state the
durable log is still empty afterwards. -/
theorem refresh_error_no_durable_line :
    (refreshSnapshotModel svcErrFx {} "SPX" envFx).2.durableLog = [] ∧
    ((alistGet (refreshSnapshotModel svcErrFx {} "SPX" envFx).2.historyCache
        "SPX").getD []).length = 1 ∧
    (alistGet (refreshSnapshotModel svcErrFx {} "SPX" envFx).2.states
        "SPX").isSome = true := by
  have hmatch : refreshUpstream svcErrFx.client
      (resolveSchwabSymbol svcErrFx "SPX") = Except.error "boom" := rfl
  have hup : strUpper "SPX" = "SPX" := by decide
  simp only [refreshSnapshotModel, hup, hmatch]
  refine ⟨?_, ?_, ?_⟩
  · trivial
  · simp [appendMemoryHistory, alistSet, alistGet, histAppend]
  · simp [alistSet, alistGet]

/-- C9: when `get_snapshot` finds the key stale, fails to acquire the refresh
slot, and a previous snapshot exists, it returns a copy of that snapshot
whose system section has `stale = true` and
`stale_reason = "refresh_in_progress"`, with every other system field and
every other snapshot field unchanged, and the service state (in particular
the cached snapshot held in `SnapshotState`) is left unmodified. -/
theorem get_snapshot_stale_copy (svc : Service) (st : ServiceState)
    (indexCodeRaw : String) (nowEpoch : ℚ) (env : RefreshEnv)
    (strec : SnapshotStateRec) (snap : Snapshot)
    (h1 : alistGet st.states (strUpper indexCodeRaw) = some strec)
    (h2 : strec.snapshot = some snap)
    (h3 : (svc.refresh_seconds : ℚ) ≤ nowEpoch - strec.updated_at_epoch) :
    getSnapshotModel svc st indexCodeRaw nowEpoch false env = (markStale snap, st) ∧
    ((markStale snap).system.getD {}).stale = some true ∧
    ((markStale snap).system.getD {}).stale_reason = some "refresh_in_progress" ∧
    ((markStale snap).system.getD {}).refresh_seconds
      = (snap.system.getD {}).refresh_seconds ∧
    ((markStale snap).system.getD {}).last_refresh_epoch
      = (snap.system.getD {}).last_refresh_epoch ∧
    ((markStale snap).system.getD {}).source = (snap.system.getD {}).source ∧
    ((markStale snap).system.getD {}).error = (snap.system.getD {}).error ∧
    { markStale snap with system := snap.system } = snap := by
  have hopt : (alistGet st.states (strUpper indexCodeRaw)).bind
      (fun s => s.snapshot) = some snap := by
    rw [h1]
    simpa using h2
  have hmap : ((alistGet st.states (strUpper indexCodeRaw)).map
      (fun s => s.updated_at_epoch)).getD 0 = strec.updated_at_epoch := by
    rw [h1]
    rfl
  refine ⟨?_, rfl, rfl, rfl, rfl, rfl, rfl, rfl⟩
  simp only [getSnapshotModel, hopt, hmap]
  rw [if_neg (not_lt.mpr h3)]
  simp

/-- Witness for C9 at the concrete cached-snapshot fixture. -/
theorem get_snapshot_stale_copy_witness :
    getSnapshotModel svcErrFx stateFx "SPX" 100 false envFx
        = (markStale snapFx, stateFx) ∧
      ((markStale snapFx).system.getD {}).stale = some true ∧
      ((markStale snapFx).system.getD {}).stale_reason = some "refresh_in_progress" ∧
      { markStale snapFx with system := snapFx.system } = snapFx :=
  have h := get_snapshot_stale_copy svcErrFx stateFx "SPX" 100 envFx
    { snapshot := some snapFx, updated_at_epoch := 0, last_error := none } snapFx
    rfl rfl (by norm_num [svcErrFx])
  ⟨h.1, h.2.1, h.2.2.1, h.2.2.2.2.2.2.2⟩

/-! ## Single-flight claims -/

/-- Counting over a list with one distinguished element. -/
theorem countP_middle {α : Type} (p : α → Bool) (l1 l2 : List α) (a : α) :
    (l1 ++ a :: l2).countP p = l1.countP p + l2.countP p + (if p a then 1 else 0) := by
  rw [List.countP_append, List.countP_cons, Nat.add_assoc]

namespace SingleFlight

/-- The burst-scenario invariant holds initially. -/
theorem inv_init (n : ℕ) : Inv (initConfig n) := by
  refine ⟨⟨0, rfl, Or.inl rfl⟩, ?_, ?_, ?_, ?_, ?_, ?_, ?_⟩
  · intro _
    simp [initConfig, List.countP_replicate, pcRefreshing]
  · intro h
    simp [initConfig] at h
  · intro hmem
    simpa using List.eq_of_mem_replicate hmem
  · intro g hmem
    simpa using List.eq_of_mem_replicate hmem
  · intro snap hmem
    simpa using List.eq_of_mem_replicate hmem
  · intro g hmem
    simpa using List.eq_of_mem_replicate hmem
  · intro r hmem
    simpa using List.eq_of_mem_replicate hmem

end SingleFlight


namespace SingleFlight

/-- `pcRefreshing` at `entry`. -/
theorem pcRefreshing_entry : pcRefreshing CallerPC.entry = false := rfl

/-- `pcRefreshing` at `tryAcquire`. -/
theorem pcRefreshing_tryAcquire (snap : Option ℕ) :
    pcRefreshing (CallerPC.tryAcquire snap) = false := rfl

/-- `pcRefreshing` at `refreshing`. -/
theorem pcRefreshing_refreshing (g : ℕ) :
    pcRefreshing (CallerPC.refreshing g) = true := rfl

/-- `pcRefreshing` at `done`. -/
theorem pcRefreshing_done (r : CallerResult) :
    pcRefreshing (CallerPC.done r) = false := rfl

/-- A false boolean condition contributes no count. -/
theorem count_ite_false : (if (false = true) then (1 : ℕ) else 0) = 0 := rfl

/-- A true boolean condition contributes one count. -/
theorem count_ite_true : (if (true = true) then (1 : ℕ) else 0) = 1 := rfl

/-- The burst-scenario invariant is preserved by every interleaving step. -/
theorem inv_step {c c2 : Config} (hinv : Inv c) (hstep : Step c c2) : Inv c2 := by
  cases hstep with
  | mk s s2 pre post pc pc2 hcs =>
    obtain ⟨hcached, hlock_free, hlock_held, hnowait, hnounlock, htry, hrefg, hdone⟩ := hinv
    dsimp only at hcached hlock_free hlock_held hnowait hnounlock htry hrefg hdone
    have hpc_old : pc ∈ pre ++ pc :: post :=
      List.mem_append_right _ (List.mem_cons_self _ _)
    have hmem_old : ∀ x : CallerPC, x ∈ pre ∨ x ∈ post → x ∈ pre ++ pc :: post := by
      intro x hx
      rcases hx with h | h
      · exact List.mem_append_left _ h
      · exact List.mem_append_right _ (List.mem_cons_of_mem _ h)
    have hmem_new : ∀ x : CallerPC, x ∈ pre ++ pc2 :: post →
        x ∈ pre ∨ x = pc2 ∨ x ∈ post := by
      intro x hx
      rcases List.mem_append.mp hx with h | h
      · exact Or.inl h
      · rcases List.mem_cons.mp h with h | h
        · exact Or.inr (Or.inl h)
        · exact Or.inr (Or.inr h)
    obtain ⟨g0, hg0, hbound⟩ := hcached
    cases hcs with
    | entryFresh g hc hf =>
      have hgg : g0 = g := by
        rw [hc] at hg0
        exact (Option.some.inj hg0).symm
      subst hgg
      have hg1 : 1 ≤ g0 := by simpa [isFresh] using hf
      have hgfc : g0 ≤ s.fetchCount := by
        rcases hbound with h0 | h12
        · omega
        · exact h12.2
      refine ⟨⟨g0, hc, Or.inr ⟨hg1, hgfc⟩⟩, ?_, ?_, ?_, ?_, ?_, ?_, ?_⟩
      · intro hl
        have h0 := hlock_free hl
        rw [countP_middle, pcRefreshing_entry, count_ite_false] at h0
        rw [countP_middle, pcRefreshing_done, count_ite_false]
        omega
      · intro hl
        have h1 := hlock_held hl
        rw [countP_middle, pcRefreshing_entry, count_ite_false] at h1
        rw [countP_middle, pcRefreshing_done, count_ite_false]
        omega
      · intro hmem
        rcases hmem_new _ hmem with h | h | h
        · exact hnowait (hmem_old _ (Or.inl h))
        · simp at h
        · exact hnowait (hmem_old _ (Or.inr h))
      · intro g hmem
        rcases hmem_new _ hmem with h | h | h
        · exact hnounlock g (hmem_old _ (Or.inl h))
        · simp at h
        · exact hnounlock g (hmem_old _ (Or.inr h))
      · intro snap hmem
        rcases hmem_new _ hmem with h | h | h
        · exact htry snap (hmem_old _ (Or.inl h))
        · simp at h
        · exact htry snap (hmem_old _ (Or.inr h))
      · intro g hmem
        rcases hmem_new _ hmem with h | h | h
        · exact hrefg g (hmem_old _ (Or.inl h))
        · simp at h
        · exact hrefg g (hmem_old _ (Or.inr h))
      · intro r hmem
        rcases hmem_new _ hmem with h | h | h
        · exact hdone r (hmem_old _ (Or.inl h))
        · have hr : r = CallerResult.freshHit g0 := by
            injection h with hh
          subst hr
          exact Or.inr ⟨g0, hg1, hgfc, Or.inr rfl⟩
        · exact hdone r (hmem_old _ (Or.inr h))
    | entryStale g hc hf =>
      have hgg : g0 = g := by
        rw [hc] at hg0
        exact (Option.some.inj hg0).symm
      subst hgg
      have hg00 : g0 = 0 := by
        have hnot : ¬(1 ≤ g0) := by simpa [isFresh] using hf
        omega
      refine ⟨⟨g0, hc, hbound⟩, ?_, ?_, ?_, ?_, ?_, ?_, ?_⟩
      · intro hl
        have h0 := hlock_free hl
        rw [countP_middle, pcRefreshing_entry, count_ite_false] at h0
        rw [countP_middle, pcRefreshing_tryAcquire, count_ite_false]
        omega
      · intro hl
        have h1 := hlock_held hl
        rw [countP_middle, pcRefreshing_entry, count_ite_false] at h1
        rw [countP_middle, pcRefreshing_tryAcquire, count_ite_false]
        omega
      · intro hmem
        rcases hmem_new _ hmem with h | h | h
        · exact hnowait (hmem_old _ (Or.inl h))
        · simp at h
        · exact hnowait (hmem_old _ (Or.inr h))
      · intro g hmem
        rcases hmem_new _ hmem with h | h | h
        · exact hnounlock g (hmem_old _ (Or.inl h))
        · simp at h
        · exact hnounlock g (hmem_old _ (Or.inr h))
      · intro snap hmem
        rcases hmem_new _ hmem with h | h | h
        · exact htry snap (hmem_old _ (Or.inl h))
        · have hs : snap = some g0 := by
            injection h with hh
          rw [hs, hg00]
        · exact htry snap (hmem_old _ (Or.inr h))
      · intro g hmem
        rcases hmem_new _ hmem with h | h | h
        · exact hrefg g (hmem_old _ (Or.inl h))
        · simp at h
        · exact hrefg g (hmem_old _ (Or.inr h))
      · intro r hmem
        rcases hmem_new _ hmem with h | h | h
        · exact hdone r (hmem_old _ (Or.inl h))
        · simp at h
        · exact hdone r (hmem_old _ (Or.inr h))
    | entryMiss hc =>
      rw [hc] at hg0
      exact Option.noConfusion hg0
    | acquire snap hlf =>
      have hcnt0 := hlock_free hlf
      rw [countP_middle, pcRefreshing_tryAcquire, count_ite_false] at hcnt0
      have hpre0 : pre.countP pcRefreshing = 0 := by omega
      have hpost0 : post.countP pcRefreshing = 0 := by omega
      refine ⟨⟨g0, hg0, ?_⟩, ?_, ?_, ?_, ?_, ?_, ?_, ?_⟩
      · dsimp only
        rcases hbound with h0 | h12
        · exact Or.inl h0
        · exact Or.inr ⟨h12.1, by omega⟩
      · intro hl
        dsimp only at hl
        exact absurd hl (by simp)
      · intro _
        rw [countP_middle, pcRefreshing_refreshing, count_ite_true]
        omega
      · intro hmem
        rcases hmem_new _ hmem with h | h | h
        · exact hnowait (hmem_old _ (Or.inl h))
        · simp at h
        · exact hnowait (hmem_old _ (Or.inr h))
      · intro g hmem
        rcases hmem_new _ hmem with h | h | h
        · exact hnounlock g (hmem_old _ (Or.inl h))
        · simp at h
        · exact hnounlock g (hmem_old _ (Or.inr h))
      · intro snap2 hmem
        rcases hmem_new _ hmem with h | h | h
        · exact htry snap2 (hmem_old _ (Or.inl h))
        · simp at h
        · exact htry snap2 (hmem_old _ (Or.inr h))
      · intro g hmem
        rcases hmem_new _ hmem with h | h | h
        · have hz := List.countP_eq_zero.mp hpre0 _ h
          rw [pcRefreshing_refreshing] at hz
          simp at hz
        · have hgeq : g = s.fetchCount + 1 := by
            injection h with hh
          refine ⟨by omega, ?_⟩
          dsimp only
          omega
        · have hz := List.countP_eq_zero.mp hpost0 _ h
          rw [pcRefreshing_refreshing] at hz
          simp at hz
      · intro r hmem
        rcases hmem_new _ hmem with h | h | h
        · rcases hdone r (hmem_old _ (Or.inl h)) with h0 | ⟨g, hg1, hgf, hor⟩
          · exact Or.inl h0
          · refine Or.inr ⟨g, hg1, ?_, hor⟩
            dsimp only
            omega
        · simp at h
        · rcases hdone r (hmem_old _ (Or.inr h)) with h0 | ⟨g, hg1, hgf, hor⟩
          · exact Or.inl h0
          · refine Or.inr ⟨g, hg1, ?_, hor⟩
            dsimp only
            omega
    | acquireFailStale g hlh =>
      have hg0eq : g = 0 := Option.some.inj (htry (some g) hpc_old)
      refine ⟨⟨g0, hg0, hbound⟩, ?_, ?_, ?_, ?_, ?_, ?_, ?_⟩
      · intro hl
        have h0 := hlock_free hl
        rw [countP_middle, pcRefreshing_tryAcquire, count_ite_false] at h0
        rw [countP_middle, pcRefreshing_done, count_ite_false]
        omega
      · intro hl
        have h1 := hlock_held hl
        rw [countP_middle, pcRefreshing_tryAcquire, count_ite_false] at h1
        rw [countP_middle, pcRefreshing_done, count_ite_false]
        omega
      · intro hmem
        rcases hmem_new _ hmem with h | h | h
        · exact hnowait (hmem_old _ (Or.inl h))
        · simp at h
        · exact hnowait (hmem_old _ (Or.inr h))
      · intro g2 hmem
        rcases hmem_new _ hmem with h | h | h
        · exact hnounlock g2 (hmem_old _ (Or.inl h))
        · simp at h
        · exact hnounlock g2 (hmem_old _ (Or.inr h))
      · intro snap hmem
        rcases hmem_new _ hmem with h | h | h
        · exact htry snap (hmem_old _ (Or.inl h))
        · simp at h
        · exact htry snap (hmem_old _ (Or.inr h))
      · intro g2 hmem
        rcases hmem_new _ hmem with h | h | h
        · exact hrefg g2 (hmem_old _ (Or.inl h))
        · simp at h
        · exact hrefg g2 (hmem_old _ (Or.inr h))
      · intro r hmem
        rcases hmem_new _ hmem with h | h | h
        · exact hdone r (hmem_old _ (Or.inl h))
        · have hr : r = CallerResult.staleCopy g := by
            injection h with hh
          subst hr
          rw [hg0eq]
          exact Or.inl rfl
        · exact hdone r (hmem_old _ (Or.inr h))
    | acquireFailNone hlh =>
      exact Option.noConfusion (htry none hpc_old)
    | refreshDone g =>
      obtain ⟨hg1, hgfc⟩ := hrefg g hpc_old
      have hlockheld : s.lockHeld = true := by
        cases hl : s.lockHeld
        · have h0 := hlock_free hl
          rw [countP_middle, pcRefreshing_refreshing, count_ite_true] at h0
          omega
        · rfl
      have hcnt1 := hlock_held hlockheld
      rw [countP_middle, pcRefreshing_refreshing, count_ite_true] at hcnt1
      have hpre0 : pre.countP pcRefreshing = 0 := by omega
      have hpost0 : post.countP pcRefreshing = 0 := by omega
      refine ⟨⟨g, rfl, Or.inr ⟨hg1, ?_⟩⟩, ?_, ?_, ?_, ?_, ?_, ?_, ?_⟩
      · dsimp only
        omega
      · intro _
        rw [countP_middle, pcRefreshing_done, count_ite_false]
        omega
      · intro hl
        dsimp only at hl
        exact absurd hl (by simp)
      · intro hmem
        rcases hmem_new _ hmem with h | h | h
        · exact hnowait (hmem_old _ (Or.inl h))
        · simp at h
        · exact hnowait (hmem_old _ (Or.inr h))
      · intro g2 hmem
        rcases hmem_new _ hmem with h | h | h
        · exact hnounlock g2 (hmem_old _ (Or.inl h))
        · simp at h
        · exact hnounlock g2 (hmem_old _ (Or.inr h))
      · intro snap hmem
        rcases hmem_new _ hmem with h | h | h
        · exact htry snap (hmem_old _ (Or.inl h))
        · simp at h
        · exact htry snap (hmem_old _ (Or.inr h))
      · intro g2 hmem
        rcases hmem_new _ hmem with h | h | h
        · have hz := List.countP_eq_zero.mp hpre0 _ h
          rw [pcRefreshing_refreshing] at hz
          simp at hz
        · simp at h
        · have hz := List.countP_eq_zero.mp hpost0 _ h
          rw [pcRefreshing_refreshing] at hz
          simp at hz
      · intro r hmem
        rcases hmem_new _ hmem with h | h | h
        · rcases hdone r (hmem_old _ (Or.inl h)) with h0 | ⟨g2, hg2, hgf2, hor⟩
          · exact Or.inl h0
          · refine Or.inr ⟨g2, hg2, ?_, hor⟩
            dsimp only
            omega
        · have hr : r = CallerResult.refreshed g := by
            injection h with hh
          subst hr
          refine Or.inr ⟨g, hg1, ?_, Or.inl rfl⟩
          dsimp only
          omega
        · rcases hdone r (hmem_old _ (Or.inr h)) with h0 | ⟨g2, hg2, hgf2, hor⟩
          · exact Or.inl h0
          · refine Or.inr ⟨g2, hg2, ?_, hor⟩
            dsimp only
            omega
    | waitServed g hl hc =>
      exact absurd hpc_old hnowait
    | waitExpired =>
      exact absurd hpc_old hnowait
    | unlockedDone g =>
      exact absurd hpc_old (hnounlock g)

end SingleFlight

namespace SingleFlight

/-- The burst-scenario invariant holds in every reachable configuration. -/
theorem inv_reach {n : ℕ} {c : Config} (h : Reach (initConfig n) c) : Inv c := by
  induction h with
  | refl => exact inv_init n
  | tail hr hs ih => exact inv_step ih hs

/-- C1 (amended): in the stale-key burst scenario, every reachable
configuration has at most one caller inside a refresh body (refresh bodies
for a key never execute concurrently — though a caller that acquires the
freed slot after an earlier refresh completed may issue a further,
serialized, upstream fetch); every finished caller holds either the prior
snapshot taken as a stale copy or a snapshot produced by a completed
refresh; and no unfinished caller is ever stuck — there is no exceptional
outcome. -/
theorem single_flight_serialized (n : ℕ) (c : Config)
    (h : Reach (initConfig n) c) :
    c.2.countP pcInRefreshBody ≤ 1 ∧
    (∀ r, CallerPC.done r ∈ c.2 →
      r = CallerResult.staleCopy 0 ∨
        ∃ g, 1 ≤ g ∧ g ≤ c.1.fetchCount ∧
          (r = CallerResult.refreshed g ∨ r = CallerResult.freshHit g)) ∧
    (∀ pc ∈ c.2, (∀ r, pc ≠ CallerPC.done r) →
      ∃ s2 pc2, CStep c.1 pc s2 pc2) := by
  have hinv := inv_reach h
  refine ⟨?_, hinv.done_ok, ?_⟩
  · have hcong : c.2.countP pcInRefreshBody = c.2.countP pcRefreshing := by
      apply List.countP_congr
      intro x hx
      cases x with
      | refreshingUnlocked g => exact absurd hx (hinv.no_unlocked g)
      | entry => simp [pcInRefreshBody, pcRefreshing]
      | tryAcquire snap => simp [pcInRefreshBody, pcRefreshing]
      | refreshing g => simp [pcInRefreshBody, pcRefreshing]
      | waiting => simp [pcInRefreshBody, pcRefreshing]
      | done r => simp [pcInRefreshBody, pcRefreshing]
    rw [hcong]
    cases hl : c.1.lockHeld
    · rw [hinv.lock_free hl]
      omega
    · rw [hinv.lock_held hl]
  · intro pc hmem hnotdone
    obtain ⟨g0, hg0, _⟩ := hinv.cached_some
    cases pc with
    | entry =>
      by_cases hf : isFresh g0 = true
      · exact ⟨_, _, CStep.entryFresh c.1 g0 hg0 hf⟩
      · exact ⟨_, _, CStep.entryStale c.1 g0 hg0 (by simpa using hf)⟩
    | tryAcquire snap =>
      cases hl : c.1.lockHeld
      · exact ⟨_, _, CStep.acquire c.1 snap hl⟩
      · cases snap with
        | some g => exact ⟨_, _, CStep.acquireFailStale c.1 g hl⟩
        | none => exact ⟨_, _, CStep.acquireFailNone c.1 hl⟩
    | refreshing g => exact ⟨_, _, CStep.refreshDone c.1 g⟩
    | waiting => exact ⟨_, _, CStep.waitExpired c.1⟩
    | refreshingUnlocked g => exact ⟨_, _, CStep.unlockedDone c.1 g⟩
    | done r => exact absurd rfl (hnotdone r)

/-- Witness for C1 (amended) at the initial two-caller configuration. -/
theorem single_flight_serialized_witness :
    (initConfig 2).2.countP pcInRefreshBody ≤ 1 ∧
    (∀ r, CallerPC.done r ∈ (initConfig 2).2 →
      r = CallerResult.staleCopy 0 ∨
        ∃ g, 1 ≤ g ∧ g ≤ (initConfig 2).1.fetchCount ∧
          (r = CallerResult.refreshed g ∨ r = CallerResult.freshHit g)) ∧
    (∀ pc ∈ (initConfig 2).2, (∀ r, pc ≠ CallerPC.done r) →
      ∃ s2 pc2, CStep (initConfig 2).1 pc s2 pc2) :=
  single_flight_serialized 2 (initConfig 2) Relation.ReflTransGen.refl

/-- C1 counterexample: with two concurrent callers on the same stale key,
the interleaving in which the second caller's non-blocking acquire happens
after the first caller's refresh completed issues a second upstream fetch —
both callers finish with refreshed snapshots, but two fetches were issued,
refuting the claim's "at most one upstream fetch" bound. -/
theorem single_flight_two_fetches :
    Reach (initConfig 2)
      ({ lockHeld := false, cached := some 2, fetchCount := 2 },
        [CallerPC.done (CallerResult.refreshed 1),
          CallerPC.done (CallerResult.refreshed 2)]) ∧
    ¬(({ lockHeld := false, cached := some 2, fetchCount := 2 } : SysState).fetchCount
        ≤ 1) := by
  constructor
  · have h1 : Step
        (({ lockHeld := false, cached := some 0, fetchCount := 0 } : SysState),
          [CallerPC.entry, CallerPC.entry])
        (({ lockHeld := false, cached := some 0, fetchCount := 0 } : SysState),
          [CallerPC.tryAcquire (some 0), CallerPC.entry]) :=
      Step.mk _ _ [] [CallerPC.entry] CallerPC.entry (CallerPC.tryAcquire (some 0))
        (CStep.entryStale _ 0 rfl rfl)
    have h2 : Step
        (({ lockHeld := false, cached := some 0, fetchCount := 0 } : SysState),
          [CallerPC.tryAcquire (some 0), CallerPC.entry])
        (({ lockHeld := false, cached := some 0, fetchCount := 0 } : SysState),
          [CallerPC.tryAcquire (some 0), CallerPC.tryAcquire (some 0)]) :=
      Step.mk _ _ [CallerPC.tryAcquire (some 0)] [] CallerPC.entry
        (CallerPC.tryAcquire (some 0)) (CStep.entryStale _ 0 rfl rfl)
    have h3 : Step
        (({ lockHeld := false, cached := some 0, fetchCount := 0 } : SysState),
          [CallerPC.tryAcquire (some 0), CallerPC.tryAcquire (some 0)])
        (({ lockHeld := true, cached := some 0, fetchCount := 1 } : SysState),
          [CallerPC.refreshing 1, CallerPC.tryAcquire (some 0)]) :=
      Step.mk _ _ [] [CallerPC.tryAcquire (some 0)] (CallerPC.tryAcquire (some 0))
        (CallerPC.refreshing 1) (CStep.acquire _ (some 0) rfl)
    have h4 : Step
        (({ lockHeld := true, cached := some 0, fetchCount := 1 } : SysState),
          [CallerPC.refreshing 1, CallerPC.tryAcquire (some 0)])
        (({ lockHeld := false, cached := some 1, fetchCount := 1 } : SysState),
          [CallerPC.done (CallerResult.refreshed 1), CallerPC.tryAcquire (some 0)]) :=
      Step.mk _ _ [] [CallerPC.tryAcquire (some 0)] (CallerPC.refreshing 1)
        (CallerPC.done (CallerResult.refreshed 1)) (CStep.refreshDone _ 1)
    have h5 : Step
        (({ lockHeld := false, cached := some 1, fetchCount := 1 } : SysState),
          [CallerPC.done (CallerResult.refreshed 1), CallerPC.tryAcquire (some 0)])
        (({ lockHeld := true, cached := some 1, fetchCount := 2 } : SysState),
          [CallerPC.done (CallerResult.refreshed 1), CallerPC.refreshing 2]) :=
      Step.mk _ _ [CallerPC.done (CallerResult.refreshed 1)] []
        (CallerPC.tryAcquire (some 0)) (CallerPC.refreshing 2)
        (CStep.acquire _ (some 0) rfl)
    have h6 : Step
        (({ lockHeld := true, cached := some 1, fetchCount := 2 } : SysState),
          [CallerPC.done (CallerResult.refreshed 1), CallerPC.refreshing 2])
        (({ lockHeld := false, cached := some 2, fetchCount := 2 } : SysState),
          [CallerPC.done (CallerResult.refreshed 1),
            CallerPC.done (CallerResult.refreshed 2)]) :=
      Step.mk _ _ [CallerPC.done (CallerResult.refreshed 1)] []
        (CallerPC.refreshing 2) (CallerPC.done (CallerResult.refreshed 2))
        (CStep.refreshDone _ 2)
    exact ((((((Relation.ReflTransGen.refl).tail h1).tail h2).tail h3).tail
      h4).tail h5).tail h6
  · dsimp only
    omega

end SingleFlight
